import Mathlib

/-!
Verification of the `gmpm` portfolio-manager core against its specification.

The Python source is shallowly embedded:
* dates are `Int` (day ordinals), numeric values are `ℚ`;
* a possibly-NaN float is `Option ℚ` (`none` = non-finite), written `PyFloat`;
* Python dicts that the code builds in a fixed insertion order are
  association lists `List (String × _)`;
* code that may raise is embedded in `Except Unit`; a `try/except` block
  becomes a `match` on the embedded body's result.
-/

namespace GMPM

/-! ## analysis/meso.py : time-series lookup (`MesoAnalyzer._value_at_or_before`) -/

/-- A parsed time-series point: `(date, value)` as produced by
`MesoAnalyzer._parse_timeseries` (dates comparable, values floats). -/
abbrev TSPoint := Int × ℚ

/-- Embedding of `MesoAnalyzer._parse_timeseries`: drop invalid entries
(`none` models rows whose date or value failed to parse) and sort by date
(Python's stable `list.sort(key=lambda x: x[0])`). -/
def parse_timeseries (raw : List (Option TSPoint)) : List TSPoint :=
  (raw.filterMap id).mergeSort (fun a b => a.1 ≤ b.1)

/-- Embedding of `MesoAnalyzer._value_at_or_before` (meso.py lines 144-152):
on an empty list return `none`; otherwise scan the points in reverse and
return the first value whose date is `≤ target`; if none qualifies, fall
back to the first point's value. -/
def value_at_or_before (points : List TSPoint) (target : Int) : Option ℚ :=
  if points.isEmpty then none
  else
    match points.reverse.find? (fun p => decide (p.1 ≤ target)) with
    | some p => some p.2
    | none => (points.head?).map Prod.snd

/-- The element returned by the reversed scan is the last list element
satisfying the predicate. -/
lemma find?_reverse_eq_getLast?_filter (l : List TSPoint) (p : TSPoint → Bool) :
    l.reverse.find? p = (l.filter p).getLast? := by
  induction l with
  | nil => simp
  | cons a l ih =>
      simp only [List.reverse_cons, List.find?_append, ih, List.filter_cons]
      cases hl : l.filter p with
      | nil =>
          by_cases h : p a = true <;> simp [h, List.find?]
      | cons c cs =>
          by_cases h : p a = true
          · simp only [h, if_pos]
            cases cs with
            | nil => simp
            | cons d ds =>
                rw [List.getLast?_cons_cons,
                  List.getLast?_eq_getLast_of_ne_nil (l := d :: ds) (by simp)]
                exact (List.getLast?_eq_getLast_of_ne_nil (by simp)).symm
          · simp [h]

/-- In a list that is pairwise `R`, every element is related to the last one
unless it is the last one. -/
lemma pairwise_rel_getLast? {R : TSPoint → TSPoint → Prop} {l : List TSPoint}
    (hp : l.Pairwise R) {b : TSPoint} (hb : l.getLast? = some b) :
    ∀ q ∈ l, q = b ∨ R q b := by
  induction l with
  | nil => simp at hb
  | cons a l ih =>
      intro q hq
      cases l with
      | nil =>
          simp only [List.getLast?_singleton, Option.some.injEq] at hb
          rcases List.mem_singleton.mp hq with rfl
          left; exact hb
      | cons c cs =>
          rw [List.getLast?_cons_cons] at hb
          have hbmem : b ∈ c :: cs := by
            rcases List.mem_getLast?_eq_getLast (l := c :: cs) (x := b) hb with ⟨h1, h2⟩
            exact h2 ▸ List.getLast_mem h1
          rcases List.mem_cons.mp hq with rfl | hq'
          · right
            exact (List.pairwise_cons.mp hp).1 b hbmem
          · exact ih (List.pairwise_cons.mp hp).2 hb q hq'

/-- The lookup answers with the last element of the filtered prefix. -/
lemma value_at_or_before_eq (points : List TSPoint) (t : Int) :
    value_at_or_before points t =
      if points.isEmpty then none
      else
        match (points.filter (fun p => decide (p.1 ≤ t))).getLast? with
        | some p => some p.2
        | none => (points.head?).map Prod.snd := by
  unfold value_at_or_before
  rw [find?_reverse_eq_getLast?_filter]

/-! ## data/fetchers/macro.py : `_series_percentile` and `_series_zscore`

A pandas series is a `List (Option ℚ)`: `none` models a missing/NaN entry,
so `filterMap id` is `dropna()`.  `np.std` is the population standard
deviation, i.e. the square root of the mean squared deviation; the square
root of a float has no exact rational embedding, so it is passed in as a
parameter `sqrtQ` (only `sqrtQ 0 = 0` is ever needed by the claims). -/

/-- Mean of a list (`np.mean`); division by zero only for the empty list,
which the callers guard against. -/
def np_mean (arr : List ℚ) : ℚ := arr.sum / arr.length

/-- Population variance (`np.std` squared): mean of squared deviations. -/
def np_var (arr : List ℚ) : ℚ := np_mean (arr.map (fun x => (x - np_mean arr) ^ 2))

/-- Population standard deviation `np.std`, with the square root supplied. -/
def np_std (sqrtQ : ℚ → ℚ) (arr : List ℚ) : ℚ := sqrtQ (np_var arr)

/-- Embedding of `MacroFetcher._series_percentile` (macro.py lines 707-715):
guard on raw length < 20, drop NaN, guard again, sort, then
`np.searchsorted(arr, value, side='right') / size * 100`. -/
def series_percentile (s : List (Option ℚ)) (value : ℚ) : ℚ :=
  if s.length < 20 then 50
  else
    let arr := s.filterMap id
    if arr.length < 20 then 50
    else
      let sorted := arr.mergeSort (fun a b => a ≤ b)
      let pos := (sorted.takeWhile (fun a => a ≤ value)).length
      (pos : ℚ) / (arr.length : ℚ) * 100

/-- Embedding of `MacroFetcher._series_zscore` (macro.py lines 717-727):
same guards, then `(value - mean) / std`, returning 0 when the standard
deviation is exactly 0. -/
def series_zscore (sqrtQ : ℚ → ℚ) (s : List (Option ℚ)) (value : ℚ) : ℚ :=
  if s.length < 20 then 0
  else
    let arr := s.filterMap id
    if arr.length < 20 then 0
    else
      let mu := np_mean arr
      let sigma := np_std sqrtQ arr
      if sigma = 0 then 0 else (value - mu) / sigma

lemma list_sum_nonneg {l : List ℚ} (h : ∀ x ∈ l, 0 ≤ x) : 0 ≤ l.sum := by
  induction l with
  | nil => simp
  | cons a l ih =>
      simp only [List.sum_cons]
      have := h a (by simp)
      have := ih (fun x hx => h x (List.mem_cons_of_mem _ hx))
      linarith

lemma list_sum_eq_zero_of_nonneg {l : List ℚ} (h : ∀ x ∈ l, 0 ≤ x)
    (hz : l.sum = 0) : ∀ x ∈ l, x = 0 := by
  induction l with
  | nil => simp
  | cons a l ih =>
      intro x hx
      have ha : 0 ≤ a := h a (by simp)
      have hl : 0 ≤ l.sum := list_sum_nonneg (fun y hy => h y (List.mem_cons_of_mem _ hy))
      simp only [List.sum_cons] at hz
      have ha0 : a = 0 := by linarith
      have hl0 : l.sum = 0 := by linarith
      rcases List.mem_cons.mp hx with rfl | hx'
      · exact ha0
      · exact ih (fun y hy => h y (List.mem_cons_of_mem _ hy)) hl0 x hx'

/-! ## High-yield spread basis-point normalization sites -/

/-- Embedding of the credit-spread unit normalization in
`MacroFetcher.get_macro_snapshot` (macro.py lines 490-492):
`flat['credit_spread'] = hy_value * 100.0 if hy_value < 50 else hy_value`. -/
def snapshot_credit_spread (hy_value : ℚ) : ℚ :=
  if hy_value < 50 then hy_value * 100 else hy_value

/-- Embedding of the `HY_SPREAD` `value_bps` normalization in
`MesoAnalyzer.analyze` (meso.py line 46). -/
def meso_value_bps (v : ℚ) : ℚ :=
  if v < 50 then v * 100 else v

/-- Embedding of the `HY_SPREAD` per-change `_bps` normalization in
`MesoAnalyzer.analyze` (meso.py line 50); the multiplier is decided by the
level `v`, while the change `ch` is what gets scaled. -/
def meso_change_bps (v ch : ℚ) : ℚ :=
  if v < 50 then ch * 100 else ch

/-! ## analysis/regime.py : `RegimeDetector`

`detect` consumes a non-empty macro dict, modelled as a record of the keys
the scorers read (`none` = key absent).  Python's `max(scores, key=scores.get)`
iterates the dict in insertion order and keeps the first strict maximum. -/

/-- Embedding of the `RegimeState` dataclass. -/
structure RegimeState where
  regime : String
  confidence : ℚ
  previous : Option String := none
  duration_days : Int := 0

/-- The state installed by `RegimeDetector.__init__`. -/
def initial_regime_state : RegimeState := { regime := "UNCERTAIN", confidence := 50 }

/-- The macro keys read by the three regime scorers. -/
structure RegimeMacro where
  VIX : Option ℚ := none
  vix : Option ℚ := none
  YIELD_CURVE_10Y2Y : Option ℚ := none
  yield_curve : Option ℚ := none
  credit_spread : Option ℚ := none
  HY_SPREAD : Option ℚ := none

/-- `macro.get('VIX', macro.get('vix', 20))`. -/
def vixOf (m : RegimeMacro) : ℚ := m.VIX.getD (m.vix.getD 20)

/-- `macro.get('YIELD_CURVE_10Y2Y', macro.get('yield_curve', 0))`. -/
def ycOf (m : RegimeMacro) : ℚ := m.YIELD_CURVE_10Y2Y.getD (m.yield_curve.getD 0)

/-- The credit-spread lookup shared by the three scorers: take
`credit_spread` if present, else normalize `HY_SPREAD` to basis points. -/
def csOf (m : RegimeMacro) : Option ℚ :=
  match m.credit_spread with
  | some c => some c
  | none =>
      match m.HY_SPREAD with
      | some hy => some (if hy < 50 then hy * 100 else hy)
      | none => none

/-- Embedding of `RegimeDetector._score_risk_on` (regime.py lines 89-114). -/
def score_risk_on (m : RegimeMacro) : ℚ :=
  let s : ℚ := 50
  let s := s + (if vixOf m < 15 then 20 else if vixOf m < 20 then 10 else 0)
  let s := s + (if ycOf m > 0 then 15 else 0)
  let s := s + (match csOf m with
    | some cs => if cs < 350 then 15 else 0
    | none => 0)
  min 100 s

/-- Embedding of `RegimeDetector._score_risk_off` (regime.py lines 116-141). -/
def score_risk_off (m : RegimeMacro) : ℚ :=
  let s : ℚ := 50
  let s := s + (if vixOf m > 25 then 20 else if vixOf m > 20 then 10 else 0)
  let s := s + (if ycOf m < 0 then 15 else 0)
  let s := s + (match csOf m with
    | some cs => if cs > 500 then 15 else 0
    | none => 0)
  min 100 s

/-- Embedding of `RegimeDetector._score_stress` (regime.py lines 143-163). -/
def score_stress (m : RegimeMacro) : ℚ :=
  let s : ℚ := 0
  let s := s + (if vixOf m > 35 then 40 else if vixOf m > 30 then 20 else 0)
  let s := s + (match csOf m with
    | some cs => if cs > 700 then 30 else 0
    | none => 0)
  min 100 s

/-- Python's `max(d, key=d.get)` over a dict in insertion order: keep the
first entry whose score is strictly larger than the current best. -/
def pyMaxBy (first : String × ℚ) (rest : List (String × ℚ)) : String × ℚ :=
  rest.foldl (fun b x => if x.2 > b.2 then x else b) first

/-- The `(best_regime, best_score)` pair computed in `RegimeDetector.detect`
(regime.py lines 53-61), before transition detection. -/
def best_regime_pair (m : RegimeMacro) : String × ℚ :=
  pyMaxBy ("RISK_ON", score_risk_on m)
    [("RISK_OFF", score_risk_off m), ("STRESS", score_stress m)]

/-- The label `detect` ends up comparing against the current state, i.e. the
best-scoring regime after the below-60 transition rewrite
(regime.py lines 63-68). -/
def winning_label (st : RegimeState) (m : RegimeMacro) : String :=
  let best := best_regime_pair m
  if best.2 < 60 then
    (if st.regime ≠ "UNCERTAIN" then "TRANSITION" else "UNCERTAIN")
  else best.1

/-- Embedding of the state update of `RegimeDetector.detect`
(regime.py lines 51-83) for a non-empty macro dict. -/
def detect (st : RegimeState) (m : RegimeMacro) : RegimeState :=
  let best := best_regime_pair m
  let br := if best.2 < 60 then
      (if st.regime ≠ "UNCERTAIN" then "TRANSITION" else "UNCERTAIN")
    else best.1
  if br = st.regime then { st with duration_days := st.duration_days + 1 }
  else { regime := br, confidence := best.2, previous := some st.regime,
         duration_days := 1 }

/-- Iterated detection. -/
def detectN (st : RegimeState) (ms : List RegimeMacro) : RegimeState :=
  ms.foldl detect st

lemma detect_eq (st : RegimeState) (m : RegimeMacro) :
    detect st m =
      if winning_label st m = st.regime then
        { st with duration_days := st.duration_days + 1 }
      else
        { regime := winning_label st m, confidence := (best_regime_pair m).2,
          previous := some st.regime, duration_days := 1 } := rfl

lemma detect_same {st : RegimeState} {m : RegimeMacro}
    (h : winning_label st m = st.regime) :
    detect st m = { st with duration_days := st.duration_days + 1 } := by
  rw [detect_eq, if_pos h]

lemma detect_diff {st : RegimeState} {m : RegimeMacro}
    (h : winning_label st m ≠ st.regime) :
    detect st m = { regime := winning_label st m,
                    confidence := (best_regime_pair m).2,
                    previous := some st.regime, duration_days := 1 } := by
  rw [detect_eq, if_neg h]

/-- While every winning label matches the carried regime, the fold only adds
to the duration counter. -/
lemma detectN_same_all (ms : List RegimeMacro) : ∀ (st : RegimeState),
    (∀ i (h : i < ms.length),
      winning_label (detectN st (ms.take i)) (ms.get ⟨i, h⟩) = st.regime) →
    detectN st ms = { st with duration_days := st.duration_days + ms.length } := by
  induction ms with
  | nil =>
      intro st _
      show st = _
      cases st
      simp
  | cons m rest ih =>
      intro st hall
      have h0 : winning_label st m = st.regime := by
        have := hall 0 (by simp)
        simpa [detectN] using this
      have hstep : detect st m = { st with duration_days := st.duration_days + 1 } :=
        detect_same h0
      have hrest : ∀ i (h : i < rest.length),
          winning_label (detectN { st with duration_days := st.duration_days + 1 }
            (rest.take i)) (rest.get ⟨i, h⟩) =
          ({ st with duration_days := st.duration_days + 1 } : RegimeState).regime := by
        intro i h
        have := hall (i + 1) (by simpa using Nat.succ_lt_succ h)
        simpa [detectN, List.take_succ_cons, List.foldl_cons, hstep] using this
      have : detectN st (m :: rest) =
          detectN { st with duration_days := st.duration_days + 1 } rest := by
        simp [detectN, List.foldl_cons, hstep]
      rw [this, ih _ hrest]
      simp only [List.length_cons]
      congr 1
      push_cast
      ring

/-- A macro input whose best regime is `RISK_ON` with score 100:
low VIX, positive yield curve, tight credit spreads. -/
def riskon_input : RegimeMacro :=
  { VIX := some 10, yield_curve := some 1, credit_spread := some 300 }

/-- The macro input of the end-to-end scenario in the spec:
VIX 35, credit spread 550 bps, yield curve -0.2. -/
def c7_input : RegimeMacro :=
  { VIX := some 35, yield_curve := some (-(1 / 5)), credit_spread := some 550 }

lemma scores_riskon_input :
    score_risk_on riskon_input = 100 ∧ score_risk_off riskon_input = 50 ∧
      score_stress riskon_input = 0 := by
  refine ⟨?_, ?_, ?_⟩ <;>
    norm_num [score_risk_on, score_risk_off, score_stress, vixOf, ycOf, csOf,
      riskon_input, min_def]

lemma best_riskon_input : best_regime_pair riskon_input = ("RISK_ON", 100) := by
  have h := scores_riskon_input
  simp only [best_regime_pair, pyMaxBy, List.foldl_cons, List.foldl_nil,
    h.1, h.2.1, h.2.2]
  norm_num

lemma winning_label_riskon (st : RegimeState) :
    winning_label st riskon_input = "RISK_ON" := by
  unfold winning_label
  rw [best_riskon_input]
  norm_num

lemma scores_c7_input :
    score_risk_on c7_input = 50 ∧ score_risk_off c7_input = 100 ∧
      score_stress c7_input = 20 := by
  refine ⟨?_, ?_, ?_⟩ <;>
    norm_num [score_risk_on, score_risk_off, score_stress, vixOf, ycOf, csOf,
      c7_input, min_def]

lemma best_c7_input : best_regime_pair c7_input = ("RISK_OFF", 100) := by
  have h := scores_c7_input
  simp only [best_regime_pair, pyMaxBy, List.foldl_cons, List.foldl_nil,
    h.1, h.2.1, h.2.2]
  norm_num

lemma winning_label_c7 (st : RegimeState) :
    winning_label st c7_input = "RISK_OFF" := by
  unfold winning_label
  rw [best_c7_input]
  norm_num

/-! ## analysis/scenario.py : `ScenarioEngine` -/

/-- Embedding of the `ScenarioState` dataclass. -/
structure ScenarioState where
  scenario : String
  probability : ℚ
  sequence : List String
  next_prediction : String

/-- The engine's mutable state: the running `self.sequence` plus
`self.current`. -/
structure ScenarioEngineState where
  sequence : List String
  current : ScenarioState

/-- The state installed by `ScenarioEngine.__init__`. -/
def initial_scenario_engine : ScenarioEngineState :=
  { sequence := [],
    current := { scenario := "UNCERTAIN", probability := 50, sequence := [],
                 next_prediction := "UNCERTAIN" } }

/-- The macro keys read by the five scenario scorers. -/
structure ScenMacro where
  inflation_trend : Option String := none
  gdp_growth : Option ℚ := none
  core_inflation : Option ℚ := none
  credit_spread : Option ℚ := none

/-- Embedding of `ScenarioEngine._score_disinflation`
(scenario.py lines 102-114). -/
def score_disinflation (m : ScenMacro) : ℚ :=
  let s : ℚ := 50
  let s := s + (if m.inflation_trend.getD "FLAT" = "FALLING" then 25 else 0)
  let s := s + (if m.gdp_growth.getD 2 > 1 then 15 else 0)
  min 100 s

/-- Embedding of `ScenarioEngine._score_reacceleration`
(scenario.py lines 116-126). -/
def score_reacceleration (m : ScenMacro) : ℚ :=
  let s : ℚ := 40
  let s := s + (if m.gdp_growth.getD 2 > 5 / 2 then 30
    else if m.gdp_growth.getD 2 > 2 then 15 else 0)
  min 100 s

/-- Embedding of `ScenarioEngine._score_goldilocks`
(scenario.py lines 128-140). -/
def score_goldilocks (m : ScenMacro) : ℚ :=
  let s : ℚ := 40
  let infl := m.core_inflation.getD 3
  let gdp := m.gdp_growth.getD 2
  let s := s + (if 3 / 2 < infl ∧ infl < 5 / 2 ∧ gdp > 2 then 40
    else if infl < 3 ∧ gdp > 3 / 2 then 20 else 0)
  min 100 s

/-- Embedding of `ScenarioEngine._score_stagflation`
(scenario.py lines 142-154). -/
def score_stagflation (m : ScenMacro) : ℚ :=
  let s : ℚ := 30
  let infl := m.core_inflation.getD 3
  let gdp := m.gdp_growth.getD 2
  let s := s + (if infl > 4 ∧ gdp < 1 then 50
    else if infl > 3 ∧ gdp < 3 / 2 then 25 else 0)
  min 100 s

/-- Embedding of `ScenarioEngine._score_risk_off`
(scenario.py lines 156-164). -/
def scen_score_risk_off (m : ScenMacro) : ℚ :=
  let s : ℚ := 30
  let s := s + (if m.credit_spread.getD 400 > 500 then 30 else 0)
  min 100 s

/-- The `(best_scenario, best_prob)` pair of `ScenarioEngine.determine`
(scenario.py lines 69-79), Python `max` over insertion order. -/
def scen_best_pair (m : ScenMacro) : String × ℚ :=
  pyMaxBy ("DISINFLATION", score_disinflation m)
    [("REACCELERATION", score_reacceleration m),
     ("GOLDILOCKS", score_goldilocks m),
     ("STAGFLATION", score_stagflation m),
     ("RISK_OFF", scen_score_risk_off m)]

/-- Python `l[-10:]` used to cap the scenario history. -/
def lastN (n : ℕ) (l : List String) : List String := l.drop (l.length - n)

/-- Embedding of `ScenarioEngine._predict_next` (scenario.py lines 166-177). -/
def predict_next (current : String) : String :=
  (([("DISINFLATION", "GOLDILOCKS"), ("REACCELERATION", "DISINFLATION"),
     ("GOLDILOCKS", "GOLDILOCKS"), ("STAGFLATION", "RISK_OFF"),
     ("RISK_OFF", "RECOVERY"), ("RECOVERY", "GOLDILOCKS")] :
    List (String × String)).lookup current).getD "UNCERTAIN"

/-- Embedding of the state update of `ScenarioEngine.determine`
(scenario.py lines 68-96) for a non-empty macro dict: append the winning
label to the history only when it differs from the last entry (or the
history is empty), then keep the last 10 entries. -/
def determine (eng : ScenarioEngineState) (m : ScenMacro) : ScenarioEngineState :=
  let best := scen_best_pair m
  let seq := if eng.sequence.isEmpty ∨ eng.sequence.getLast? ≠ some best.1
    then lastN 10 (eng.sequence ++ [best.1]) else eng.sequence
  { sequence := seq,
    current := { scenario := best.1, probability := best.2, sequence := seq,
                 next_prediction := predict_next best.1 } }

/-- Iterated determination from the freshly initialized engine. -/
def runScenario (ms : List ScenMacro) : ScenarioEngineState :=
  ms.foldl determine initial_scenario_engine

lemma lastN_length_le (n : ℕ) (l : List String) : (lastN n l).length ≤ n := by
  unfold lastN
  rw [List.length_drop]
  omega

lemma determine_sequence (eng : ScenarioEngineState) (m : ScenMacro) :
    (determine eng m).sequence =
      if eng.sequence.isEmpty ∨ eng.sequence.getLast? ≠ some (scen_best_pair m).1
      then lastN 10 (eng.sequence ++ [(scen_best_pair m).1])
      else eng.sequence := rfl

lemma determine_preserves_cap (ms : List ScenMacro) :
    ∀ eng : ScenarioEngineState, eng.sequence.length ≤ 10 →
      ((ms.foldl determine eng).sequence.length ≤ 10) := by
  induction ms with
  | nil => intro eng h; exact h
  | cons m rest ih =>
      intro eng h
      rw [List.foldl_cons]
      refine ih _ ?_
      rw [determine_sequence]
      by_cases hc : eng.sequence.isEmpty ∨
          eng.sequence.getLast? ≠ some (scen_best_pair m).1
      · rw [if_pos hc]; exact lastN_length_le _ _
      · rw [if_neg hc]; exact h

/-! ## features/calculator.py `FeatureSet`, scoring/calculator.py,
config/settings.py

Feature groups are association lists in Python-dict insertion order.  The
`FeatureSet.macro` field is called `macroFeats` here (the source name is not
a usable Lean identifier).  The formatted `top_drivers` strings of
`AssetScore` are presentation-only and are not embedded. -/

/-- Embedding of the `FeatureSet` dataclass with its empty-dict defaults. -/
structure FeatureSet where
  symbol : String
  trend : List (String × ℚ) := []
  momentum : List (String × ℚ) := []
  volatility : List (String × ℚ) := []
  fractal : List (String × ℚ) := []
  flow : List (String × ℚ) := []
  macroFeats : List (String × ℚ) := []

/-- Python `d.get(k, dflt)` on a feature dict. -/
def fget (d : List (String × ℚ)) (k : String) (dflt : ℚ) : ℚ :=
  (d.lookup k).getD dflt

/-- `np.mean` over a nonempty list of feature values. -/
def listMean (l : List ℚ) : ℚ := l.sum / l.length

/-- `SCORE_WEIGHTS` from config/settings.py (v8.0 final weights). -/
def SCORE_WEIGHTS : List (String × ℚ) :=
  [("macro_alignment", 3 / 20), ("trend_quality", 3 / 20), ("momentum", 1 / 10),
   ("volatility", 1 / 10), ("flow_positioning", 1 / 10),
   ("technical_structure", 1 / 10), ("fractal_smc", 1 / 10),
   ("cross_asset", 1 / 20), ("timing_seasonal", 1 / 20), ("risk_reward", 1 / 10)]

/-- `REGIME_WEIGHT_ADJUSTMENTS` from config/settings.py. -/
def REGIME_WEIGHT_ADJUSTMENTS : List (String × List (String × ℚ)) :=
  [("RISK_ON", [("trend_quality", 6 / 5), ("momentum", 13 / 10), ("volatility", 4 / 5)]),
   ("RISK_OFF", [("trend_quality", 4 / 5), ("momentum", 7 / 10), ("volatility", 13 / 10), ("macro_alignment", 6 / 5)]),
   ("TRANSITION", [("volatility", 6 / 5), ("flow_positioning", 6 / 5)]),
   ("STRESS", [("volatility", 3 / 2), ("macro_alignment", 13 / 10), ("flow_positioning", 13 / 10)])]

/-- Embedding of `Settings.get_adjusted_weights`: multiply the base weight of
each component by its regime multiplier (1 when the regime or component has
no adjustment entry), then renormalize so the weights sum to 1. -/
def get_adjusted_weights (regime : String) : List (String × ℚ) :=
  let adjustments := (REGIME_WEIGHT_ADJUSTMENTS.lookup regime).getD []
  let weights := SCORE_WEIGHTS.map
    (fun kv => (kv.1, kv.2 * ((adjustments.lookup kv.1).getD 1)))
  let total := (weights.map Prod.snd).sum
  weights.map (fun kv => (kv.1, kv.2 / total))

/-- Embedding of `ScoreCalculator._score_macro`. -/
def score_macro_alignment (mg : List (String × ℚ)) : ℚ :=
  if mg.isEmpty then 50
  else
    let scores := mg.map Prod.snd
    if scores.isEmpty then 50 else listMean scores

/-- Embedding of `ScoreCalculator._score_trend`. -/
def score_trend_quality (trend : List (String × ℚ)) : ℚ :=
  if trend.isEmpty then 50
  else fget trend "ma_alignment" 50 * (3 / 10) + fget trend "adx" 50 * (1 / 4) +
    fget trend "trend_direction" 50 * (1 / 4) + fget trend "lr_slope" 50 * (1 / 5)

/-- Embedding of `ScoreCalculator._score_momentum`. -/
def score_momentum_component (momentum : List (String × ℚ)) : ℚ :=
  if momentum.isEmpty then 50 else fget momentum "momentum_composite" 50

/-- Embedding of `ScoreCalculator._score_volatility`. -/
def score_volatility_component (volatility : List (String × ℚ)) : ℚ :=
  if volatility.isEmpty then 50
  else
    let atr_pctl := fget volatility "atr_percentile" 50
    if 30 ≤ atr_pctl ∧ atr_pctl ≤ 70 then 80
    else if atr_pctl < 30 then 60
    else 40

/-- Embedding of `ScoreCalculator._score_flow`. -/
def score_flow_component (flow : List (String × ℚ)) : ℚ :=
  if flow.isEmpty then 50
  else fget flow "mfi" 50 * (1 / 2) + fget flow "volume_trend" 50 * (1 / 2)

/-- Embedding of `ScoreCalculator._score_technical`. -/
def score_technical_structure (trend momentum : List (String × ℚ)) : ℚ :=
  if trend.isEmpty ∧ momentum.isEmpty then 50
  else
    let scores :=
      (if ¬ trend.isEmpty then
        [fget trend "ma_alignment" 50, fget trend "donchian_position" 50] else []) ++
      (if ¬ momentum.isEmpty then
        [fget momentum "rsi_14" 50, fget momentum "macd_signal" 50] else [])
    if scores.isEmpty then 50 else listMean scores

/-- Embedding of `ScoreCalculator._score_fractal`. -/
def score_fractal_smc (fractal : List (String × ℚ)) : ℚ :=
  if fractal.isEmpty then 50
  else fget fractal "hurst_normalized" 50 * (3 / 10) +
    fget fractal "smc_score" 50 * (2 / 5) + fget fractal "structure_bias" 50 * (3 / 10)

/-- Embedding of `ScoreCalculator._score_risk_reward`. -/
def score_risk_reward (fs : FeatureSet) : ℚ :=
  let vol := fget fs.volatility "atr_pct" 0
  let trend_str := fget fs.trend "adx" 25
  if trend_str > 25 ∧ vol < 3 then 80
  else if trend_str > 20 then 60
  else 40

/-- The components dict built by `ScoreCalculator.calculate`
(calculator.py lines 63-94), in insertion order. -/
def score_components (fs : FeatureSet) : List (String × ℚ) :=
  [("macro_alignment", score_macro_alignment fs.macroFeats),
   ("trend_quality", score_trend_quality fs.trend),
   ("momentum", score_momentum_component fs.momentum),
   ("volatility", score_volatility_component fs.volatility),
   ("flow_positioning", score_flow_component fs.flow),
   ("technical_structure", score_technical_structure fs.trend fs.momentum),
   ("fractal_smc", score_fractal_smc fs.fractal),
   ("cross_asset", 50),
   ("timing_seasonal", 50),
   ("risk_reward", score_risk_reward fs)]

/-- The raw weighted total `sum(components[k] * weights.get(k, 0.1))`
(calculator.py lines 97-100), before clamping. -/
def weighted_total (regime : String) (fs : FeatureSet) : ℚ :=
  ((score_components fs).map
    (fun kv => kv.2 * (((get_adjusted_weights regime).lookup kv.1).getD (1 / 10)))).sum

/-- Embedding of `ScoreCalculator._calculate_direction`. -/
def calculate_direction (fs : FeatureSet) : ℚ :=
  let s1 : List ℚ := if fget fs.trend "trend_direction" 50 > 60 then [1]
    else if fget fs.trend "trend_direction" 50 < 40 then [-1] else []
  let s2 : List ℚ := if fget fs.trend "ma_alignment" 50 > 75 then [1]
    else if fget fs.trend "ma_alignment" 50 < 25 then [-1] else []
  let s3 : List ℚ := if fget fs.momentum "rsi_14" 50 > 60 then [1]
    else if fget fs.momentum "rsi_14" 50 < 40 then [-1] else []
  let s4 : List ℚ := if fget fs.fractal "structure_bias" 50 > 60 then [1]
    else if fget fs.fractal "structure_bias" 50 < 40 then [-1] else []
  let signals := s1 ++ s2 ++ s3 ++ s4
  if signals.isEmpty then 0 else listMean signals

/-- Embedding of `ScoreCalculator._determine_confidence`
(calculator.py lines 269-278). -/
def determine_confidence (total : ℚ) : String :=
  if total ≥ 80 then "INSTITUTIONAL"
  else if total ≥ 70 then "HIGH"
  else if total ≥ 55 then "MODERATE"
  else "LOW"

/-- Embedding of the `AssetScore` dataclass (formatted `top_drivers` strings
omitted as presentation-only). -/
structure AssetScore where
  symbol : String
  total : ℚ
  direction : ℚ
  confidence : String
  components : List (String × ℚ)

/-- Embedding of the non-raising path of `ScoreCalculator.calculate`
(calculator.py lines 53-118): clamp the weighted total into [0, 100], but
derive the confidence label from the unclamped total. -/
def score_calculate (regime : String) (fs : FeatureSet) : AssetScore :=
  let comps := score_components fs
  let total := weighted_total regime fs
  { symbol := fs.symbol,
    total := min 100 (max 0 total),
    direction := calculate_direction fs,
    confidence := determine_confidence total,
    components := comps }

/-! ## features/calculator.py : the 50-bar minimum of
`FeatureCalculator.calculate` -/

/-- One OHLCV row (the guard only inspects the row count). -/
structure Bar where
  bopen : ℚ
  bhigh : ℚ
  blow : ℚ
  bclose : ℚ
  bvolume : ℚ

/-- A `FeatureSet` with every group left at its empty default, as built by
`FeatureSet(symbol=symbol, timestamp=...)`. -/
def emptyFeatureSet (symbol : String) : FeatureSet := { symbol := symbol }

/-- Embedding of the insufficient-data guard of `FeatureCalculator.calculate`
(features/calculator.py lines 97-99): an empty frame or fewer than 50 bars
short-circuits to an all-empty `FeatureSet`.  The full-feature path taken at
50 or more bars is abstracted as the parameter `rest`; no claim depends on
it. -/
def feature_calculate (rest : String → List Bar → FeatureSet)
    (symbol : String) (ohlcv : List Bar) : FeatureSet :=
  if ohlcv.isEmpty ∨ ohlcv.length < 50 then emptyFeatureSet symbol
  else rest symbol ohlcv

lemma score_components_empty (sym : String) :
    score_components (emptyFeatureSet sym) =
      [("macro_alignment", 50), ("trend_quality", 50), ("momentum", 50),
       ("volatility", 50), ("flow_positioning", 50), ("technical_structure", 50),
       ("fractal_smc", 50), ("cross_asset", 50), ("timing_seasonal", 50),
       ("risk_reward", 60)] := by
  norm_num [score_components, emptyFeatureSet, score_macro_alignment,
    score_trend_quality, score_momentum_component, score_volatility_component,
    score_flow_component, score_technical_structure, score_fractal_smc,
    score_risk_reward, fget]

lemma confidence_low_of_le_51 {t : ℚ} (h : t ≤ 51) :
    determine_confidence t = "LOW" := by
  unfold determine_confidence
  rw [if_neg (by linarith : ¬ t ≥ 80), if_neg (by linarith : ¬ t ≥ 70),
    if_neg (by linarith : ¬ t ≥ 55)]

lemma weighted_total_empty_known (sym : String) :
    weighted_total "RISK_ON" (emptyFeatureSet sym) = 1325 / 26 ∧
    weighted_total "RISK_OFF" (emptyFeatureSet sym) = 51 ∧
    weighted_total "TRANSITION" (emptyFeatureSet sym) = 1325 / 26 ∧
    weighted_total "STRESS" (emptyFeatureSet sym) = 458 / 9 := by
  refine ⟨?_, ?_, ?_, ?_⟩ <;>
    · simp [weighted_total, score_components_empty, get_adjusted_weights,
        SCORE_WEIGHTS, REGIME_WEIGHT_ADJUSTMENTS, List.lookup]
      norm_num

lemma weighted_total_empty_other (sym : String) (regime : String)
    (h1 : regime ≠ "RISK_ON") (h2 : regime ≠ "RISK_OFF")
    (h3 : regime ≠ "TRANSITION") (h4 : regime ≠ "STRESS") :
    weighted_total regime (emptyFeatureSet sym) = 51 := by
  have e1 : (regime == "RISK_ON") = false := beq_eq_false_iff_ne.mpr h1
  have e2 : (regime == "RISK_OFF") = false := beq_eq_false_iff_ne.mpr h2
  have e3 : (regime == "TRANSITION") = false := beq_eq_false_iff_ne.mpr h3
  have e4 : (regime == "STRESS") = false := beq_eq_false_iff_ne.mpr h4
  have hlook : REGIME_WEIGHT_ADJUSTMENTS.lookup regime = none := by
    simp [REGIME_WEIGHT_ADJUSTMENTS, List.lookup, e1, e2, e3, e4]
  simp only [weighted_total, get_adjusted_weights, hlook]
  simp [score_components_empty, SCORE_WEIGHTS, List.lookup]
  norm_num

lemma weighted_total_empty_bounds (sym : String) (regime : String) :
    50 < weighted_total regime (emptyFeatureSet sym) ∧
      weighted_total regime (emptyFeatureSet sym) ≤ 51 := by
  by_cases h1 : regime = "RISK_ON"
  · subst h1; rw [(weighted_total_empty_known sym).1]; norm_num
  by_cases h2 : regime = "RISK_OFF"
  · subst h2; rw [(weighted_total_empty_known sym).2.1]; norm_num
  by_cases h3 : regime = "TRANSITION"
  · subst h3; rw [(weighted_total_empty_known sym).2.2.1]; norm_num
  by_cases h4 : regime = "STRESS"
  · subst h4; rw [(weighted_total_empty_known sym).2.2.2]; norm_num
  rw [weighted_total_empty_other sym regime h1 h2 h3 h4]; norm_num

lemma score_calculate_total_eq (regime : String) (fs : FeatureSet)
    (h0 : 0 ≤ weighted_total regime fs) (h100 : weighted_total regime fs ≤ 100) :
    (score_calculate regime fs).total = weighted_total regime fs := by
  show min 100 (max 0 (weighted_total regime fs)) = _
  rw [max_eq_right h0, min_eq_right h100]

/-! ## Pandas/NumPy model for the feature-group calculators

`PyFloat` is `Option ℚ`: `none` models a non-finite float (NaN; a zero
divisor, which produces an infinity or NaN in NumPy, is also collapsed to
`none`).  Comparing against a non-finite value gives `false`, as for NaN in
Python, and `pyMin`/`pyMax` reproduce Python's argument-order-sensitive
two-argument `min`/`max`.  A pandas series is a `List PyFloat` over a range
index; binary series arithmetic outer-aligns the indices, filling the
non-overlap with `none`, while pandas raises on comparing differently
indexed series.  `Except Unit` marks computations that can raise. -/

/-- A Python float that may be non-finite. -/
abbrev PyFloat := Option ℚ

/-- Lift a total binary rational operation; non-finite operands propagate. -/
def pyBin (f : ℚ → ℚ → ℚ) : PyFloat → PyFloat → PyFloat
  | some a, some b => some (f a b)
  | _, _ => none

def pyAdd : PyFloat → PyFloat → PyFloat := pyBin (· + ·)

def pySub : PyFloat → PyFloat → PyFloat := pyBin (· - ·)

def pyMul : PyFloat → PyFloat → PyFloat := pyBin (· * ·)

/-- Division; a zero divisor yields a non-finite float. -/
def pyDiv : PyFloat → PyFloat → PyFloat
  | some a, some b => if b = 0 then none else some (a / b)
  | _, _ => none

def pyNeg : PyFloat → PyFloat := Option.map (fun x => -x)

def pyAbs : PyFloat → PyFloat := Option.map (fun x => |x|)

/-- `a < b`; false when either side is non-finite, as for NaN. -/
def pyLt (a b : PyFloat) : Bool :=
  match a, b with
  | some x, some y => decide (x < y)
  | _, _ => false

/-- `a > b`; false when either side is non-finite, as for NaN. -/
def pyGt (a b : PyFloat) : Bool :=
  match a, b with
  | some x, some y => decide (x > y)
  | _, _ => false

/-- Python `min(a, b)`: returns `b` only when `b < a` holds. -/
def pyMin (a b : PyFloat) : PyFloat := if pyLt b a then b else a

/-- Python `max(a, b)`: returns `b` only when `b > a` holds. -/
def pyMax (a b : PyFloat) : PyFloat := if pyGt b a then b else a

/-- The clamp `max(0, min(100, x))` used by all the normalizers; a
non-finite `x` comes out as 100. -/
def pyClamp (x : PyFloat) : PyFloat := pyMax (some 0) (pyMin (some 100) x)

/-- A pandas series over a range index. -/
abbrev Series := List PyFloat

/-- Read position `i` under outer index alignment: positions past the end of
the shorter series read as missing. -/
def sGet (s : Series) (i : ℕ) : PyFloat := (s.get? i).getD none

/-- Pointwise binary operation with pandas outer index alignment. -/
def sAlign (f : PyFloat → PyFloat → PyFloat) (a b : Series) : Series :=
  (List.range (max a.length b.length)).map (fun i => f (sGet a i) (sGet b i))

def sMap (f : PyFloat → PyFloat) (s : Series) : Series := s.map f

/-- `s.shift(1)`. -/
def shift1 : Series → Series
  | [] => []
  | s => none :: s.dropLast

/-- `s.diff()`, i.e. `s - s.shift(1)`. -/
def sDiff (s : Series) : Series := sAlign pySub s (shift1 s)

/-- `s.tail(n)`. -/
def sTail (s : Series) (n : ℕ) : Series := s.drop (s.length - n)

/-- `pd.concat([a, b, c], axis=1).max(axis=1)`: row-wise max over the three
aligned columns, skipping NaN; all-NaN rows stay NaN. -/
def rowMax3 (a b c : Series) : Series :=
  (List.range (max a.length (max b.length c.length))).map (fun i =>
    match ([sGet a i, sGet b i, sGet c i]).filterMap id with
    | [] => none
    | x :: xs => some (xs.foldl max x))

def listMax (l : List ℚ) : ℚ :=
  match l with
  | [] => 0
  | x :: xs => xs.foldl max x

def listMin (l : List ℚ) : ℚ :=
  match l with
  | [] => 0
  | x :: xs => xs.foldl min x

/-- `s.rolling(w).apply(f)` with pandas defaults (`min_periods = w`): the
window must be full and NaN-free, otherwise the output entry is NaN. -/
def rollingApply (w : ℕ) (f : List ℚ → ℚ) (s : Series) : Series :=
  (List.range s.length).map (fun i =>
    if i + 1 < w then none
    else
      let win := (s.take (i + 1)).drop (i + 1 - w)
      if win.any (fun x => x.isNone) then none else some (f (win.filterMap id)))

def rollingMean (w : ℕ) (s : Series) : Series :=
  rollingApply w (fun l => l.sum / l.length) s

def rollingMax (w : ℕ) (s : Series) : Series := rollingApply w listMax s

def rollingMin (w : ℕ) (s : Series) : Series := rollingApply w listMin s

/-- `s.ewm(span=span).mean()` with pandas defaults (`adjust=True`,
`ignore_na=False`): weight `(1-α)^(i-j)` on each non-NaN observation `j`,
`α = 2/(span+1)`. -/
def ewmMean (span : ℕ) (s : Series) : Series :=
  let α : ℚ := 2 / (span + 1)
  (List.range s.length).map (fun i =>
    let terms := (List.range (i + 1)).filterMap (fun j =>
      (sGet s j).map (fun v => ((1 - α) ^ (i - j), v)))
    if terms.isEmpty then none
    else some ((terms.map (fun t => t.1 * t.2)).sum / (terms.map Prod.fst).sum))

/-- `s.iloc[-1]`, raising `IndexError` on an empty series. -/
def ilocLast (s : Series) : Except Unit PyFloat :=
  match s.getLast? with
  | some v => Except.ok v
  | none => Except.error ()

/-- `s.iloc[-k]` at positions the caller has length-guarded. -/
def ilocNeg (s : Series) (k : ℕ) : PyFloat := sGet s (s.length - k)

/-- A DataFrame: named columns over a shared range index. -/
abbrev PyDataFrame := List (String × Series)

/-- `df[name]`, raising `KeyError` when the column is absent. -/
def col (df : PyDataFrame) (name : String) : Except Unit Series :=
  match df.lookup name with
  | some s => Except.ok s
  | none => Except.error ()

/-! ### features/technical/trend.py : `TrendFeatures` -/

/-- `TrendFeatures._normalize_distance`: 50 when the moving average is
exactly 0, else the percent distance clamped from the ±10% band onto
[0, 100] (a NaN average comes out as 100 through the clamp). -/
def normalize_distance (price ma : PyFloat) : PyFloat :=
  if ma = some 0 then some 50
  else
    let pct_diff := pyMul (pyDiv (pySub price ma) ma) (some 100)
    pyClamp (pyMul (pyAdd pct_diff (some 10)) (some 5))

/-- The inner computation of `TrendFeatures._calculate_adx`; `Except.error`
marks the raises its own `try` catches (missing column, mismatched series
comparison, `iloc[-1]` on empty). -/
def adxBody (ohlcv : PyDataFrame) (period : ℕ) : Except Unit PyFloat := do
  let high ← col ohlcv "high"
  let low ← col ohlcv "low"
  let close ← col ohlcv "close"
  let tr := rowMax3 (sAlign pySub high low)
    (sMap pyAbs (sAlign pySub high (shift1 close)))
    (sMap pyAbs (sAlign pySub low (shift1 close)))
  let up_move := sAlign pySub high (shift1 high)
  let down_move := sAlign pySub (shift1 low) low
  let _ ← (if up_move.length = down_move.length then Except.ok ()
    else Except.error ())
  let plus_dm := (up_move.zip down_move).map
    (fun ud => if pyGt ud.1 ud.2 && pyGt ud.1 (some 0) then ud.1 else some 0)
  let minus_dm := (up_move.zip down_move).map
    (fun ud => if pyGt ud.2 ud.1 && pyGt ud.2 (some 0) then ud.2 else some 0)
  let atr := rollingMean period tr
  let plus_di := sAlign pyDiv (sMap (pyMul (some 100)) (rollingMean period plus_dm)) atr
  let minus_di := sAlign pyDiv (sMap (pyMul (some 100)) (rollingMean period minus_dm)) atr
  let dx := sAlign pyDiv
    (sMap (pyMul (some 100)) (sMap pyAbs (sAlign pySub plus_di minus_di)))
    (sAlign pyAdd plus_di minus_di)
  let adx := rollingMean period dx
  ilocLast adx

/-- `TrendFeatures._calculate_adx`: 25 on any caught failure or a NaN
result. -/
def calculate_adx (ohlcv : PyDataFrame) (period : ℕ) : ℚ :=
  match adxBody ohlcv period with
  | Except.ok (some v) => v
  | _ => 25

/-- `TrendFeatures._calculate_trend_direction`: total — its inner `try` has
no reachable failure; short histories fall back to `False` comparisons. -/
def calculate_trend_direction (close : Series) (lookback : ℕ) : ℚ :=
  let recent := sTail close lookback
  let highs := rollingMax 5 recent
  let lows := rollingMin 5 recent
  let higher_highs := if highs.length ≥ 10
    then pyGt (ilocNeg highs 1) (ilocNeg highs 10) else false
  let higher_lows := if lows.length ≥ 10
    then pyGt (ilocNeg lows 1) (ilocNeg lows 10) else false
  if higher_highs && higher_lows then 100
  else if !higher_highs && !higher_lows then 0
  else 50

/-- Least-squares slope of `ys` against `x = 0, 1, ...`; for a single point
the rational 0/0 = 0 agrees with the minimum-norm `lstsq` solution. -/
def lstsqSlope (ys : List ℚ) : ℚ :=
  let n : ℚ := ys.length
  let xs := (List.range ys.length).map (fun i => (i : ℚ))
  let sx := xs.sum
  let sy := ys.sum
  let sxy := ((xs.zip ys).map (fun p => p.1 * p.2)).sum
  let sxx := (xs.map (fun x => x ^ 2)).sum
  (n * sxy - sx * sy) / (n * sxx - sx ^ 2)

/-- `TrendFeatures._calculate_lr_slope`: `np.polyfit` raises on an empty or
NaN-carrying window (caught by the inner `try`, giving 50); a zero last
price sends the normalized slope through the non-finite clamp. -/
def calculate_lr_slope (close : Series) (period : ℕ) : PyFloat :=
  let y := sTail close period
  if y.isEmpty || y.any (fun v => v.isNone) then some 50
  else
    let slope := lstsqSlope (y.filterMap id)
    let cLast := (close.getLast?).getD none
    let pct_slope := pyMul (pyDiv (some slope) cLast) (some 100)
    pyClamp (pyMul (pyAdd pct_slope (some 1)) (some 50))

/-- The hardcoded neutral default map of `TrendFeatures.calculate`
(trend.py lines 62-66). -/
def trendDefaults : List (String × PyFloat) :=
  [("price_vs_sma20", some 50), ("price_vs_sma50", some 50),
   ("price_vs_sma200", some 50), ("ma_alignment", some 50), ("adx", some 25),
   ("trend_direction", some 50), ("lr_slope", some 50),
   ("donchian_position", some 50)]

/-- The `try` body of `TrendFeatures.calculate` (trend.py lines 19-58);
`Except.error` marks the raises its `except` catches: a missing column, the
zero-length `rolling(len(close))` window, or `iloc[-1]` on an empty
series. -/
def trendBody (ohlcv : PyDataFrame) : Except Unit (List (String × PyFloat)) := do
  let close ← col ohlcv "close"
  let high ← col ohlcv "high"
  let low ← col ohlcv "low"
  let sma_20 := rollingMean 20 close
  let sma_50 := rollingMean 50 close
  let sma_200 ← if close.length ≥ 200 then Except.ok (rollingMean 200 close)
    else if close.length = 0 then Except.error ()
    else Except.ok (rollingMean close.length close)
  let ema_9 := ewmMean 9 close
  let ema_21 := ewmMean 21 close
  let c ← ilocLast close
  let s20 ← ilocLast sma_20
  let s50 ← ilocLast sma_50
  let s200 ← ilocLast sma_200
  let e9 ← ilocLast ema_9
  let e21 ← ilocLast ema_21
  let pv20 := normalize_distance c s20
  let pv50 := normalize_distance c s50
  let pv200 := normalize_distance c s200
  let ma_alignment : ℚ :=
    (if pyGt c e9 then 25 else 0) + (if pyGt e9 e21 then 25 else 0) +
    (if pyGt c s50 then 25 else 0) + (if pyGt s50 s200 then 25 else 0)
  let adx := calculate_adx ohlcv 14
  let tdir := calculate_trend_direction close 20
  let lrs := calculate_lr_slope close 20
  let dc_high := rollingMax 20 high
  let dc_low := rollingMin 20 low
  let dc_range := sAlign pySub dc_high dc_low
  let dr ← ilocLast dc_range
  let donch ← if pyGt dr (some 0) then do
      let dl ← ilocLast dc_low
      Except.ok (pyMul (pyDiv (pySub c dl) dr) (some 100))
    else Except.ok (some 50)
  Except.ok
    [("price_vs_sma20", pv20), ("price_vs_sma50", pv50),
     ("price_vs_sma200", pv200), ("ma_alignment", some ma_alignment),
     ("adx", some adx), ("trend_direction", some tdir), ("lr_slope", lrs),
     ("donchian_position", donch)]

end GMPM

namespace GMPM.TrendFeatures

/-- `TrendFeatures.calculate` (trend.py lines 15-68): the body's result, or
the neutral default map when the body raises — it never propagates an
exception. -/
def calculate (ohlcv : GMPM.PyDataFrame) : List (String × GMPM.PyFloat) :=
  match GMPM.trendBody ohlcv with
  | Except.ok m => m
  | Except.error _ => GMPM.trendDefaults

end GMPM.TrendFeatures

namespace GMPM

/-! ### features/technical/momentum.py : `MomentumFeatures` -/

/-- `MomentumFeatures._calculate_rsi`: total — `.where` turns NaN deltas into
0, the `replace(0, 1)` guards the divisor, and the final guard turns both an
empty series (`IndexError`, caught) and a NaN entry into 50. -/
def calculate_rsi (close : Series) (period : ℕ) : ℚ :=
  let delta := sDiff close
  let gain := rollingMean period
    (delta.map (fun d => if pyGt d (some 0) then d else some 0))
  let loss := rollingMean period
    (delta.map (fun d => pyNeg (if pyLt d (some 0) then d else some 0)))
  let rs := sAlign pyDiv gain (loss.map (fun x => if x = some 0 then some 1 else x))
  let rsi := rs.map (fun r => pySub (some 100) (pyDiv (some 100) (pyAdd (some 1) r)))
  match rsi.getLast? with
  | some (some v) => v
  | _ => 50

/-- `MomentumFeatures._calculate_macd`: its inner `try` returns `(0, 0, 0)`
when `iloc[-1]` raises on an empty input. -/
def calculate_macd (close : Series) : PyFloat × PyFloat × PyFloat :=
  let ema_12 := ewmMean 12 close
  let ema_26 := ewmMean 26 close
  let macd_line := sAlign pySub ema_12 ema_26
  let signal_line := ewmMean 9 macd_line
  let histogram := sAlign pySub macd_line signal_line
  match macd_line.getLast?, signal_line.getLast?, histogram.getLast? with
  | some a, some b, some c => (a, b, c)
  | _, _, _ => (some 0, some 0, some 0)

/-- `MomentumFeatures._normalize_macd`. -/
def normalize_macd (histogram price : PyFloat) : PyFloat :=
  if price = some 0 then some 50
  else
    pyClamp (pyMul (pyAdd (pyMul (pyDiv histogram price) (some 100)) (some 2))
      (some 25))

/-- `MomentumFeatures._calculate_stochastic`: `(50, 50)` when `iloc[-1]`
raises (caught), a NaN entry falls back to 50 per component. -/
def calculate_stochastic (high low close : Series) (k_period d_period : ℕ) :
    ℚ × ℚ :=
  let lowest_low := rollingMin k_period low
  let highest_high := rollingMax k_period high
  let stoch_k := sAlign pyDiv
    (sMap (pyMul (some 100)) (sAlign pySub close lowest_low))
    (sAlign pySub highest_high lowest_low)
  let stoch_d := rollingMean d_period stoch_k
  (match stoch_k.getLast? with
    | some (some v) => v
    | _ => 50,
   match stoch_d.getLast? with
    | some (some v) => v
    | _ => 50)

/-- `MomentumFeatures._calculate_roc` (`period ≥ 1`): 50 when the series is
too short for `iloc[-period]` (`IndexError`, caught). -/
def calculate_roc (close : Series) (period : ℕ) : PyFloat :=
  if close.length < period then some 50
  else
    let roc := pyMul (pySub (pyDiv (ilocNeg close 1) (ilocNeg close period))
      (some 1)) (some 100)
    pyClamp (pyMul (pyAdd roc (some 10)) (some 5))

/-- `MomentumFeatures._calculate_williams_r`. -/
def calculate_williams_r (high low close : Series) (period : ℕ) : PyFloat :=
  let highest_high := rollingMax period high
  let lowest_low := rollingMin period low
  let wr := sAlign pyDiv
    (sMap (pyMul (some (-100))) (sAlign pySub highest_high close))
    (sAlign pySub highest_high lowest_low)
  match wr.getLast? with
  | some (some v) => some (v + 100)
  | _ => some 50

/-- The inner computation of `MomentumFeatures._calculate_cci`. -/
def cciBody (ohlcv : PyDataFrame) (period : ℕ) : Except Unit PyFloat := do
  let high ← col ohlcv "high"
  let low ← col ohlcv "low"
  let close ← col ohlcv "close"
  let tp := sMap (fun x => pyDiv x (some 3)) (sAlign pyAdd (sAlign pyAdd high low) close)
  let sma := rollingMean period tp
  let mad := rollingApply period
    (fun l =>
      let m := l.sum / l.length
      (l.map (fun x => |x - m|)).sum / l.length) tp
  let cci := sAlign pyDiv (sAlign pySub tp sma) (sMap (pyMul (some (3 / 200))) mad)
  let last ← ilocLast cci
  Except.ok (pyClamp (pyDiv (pyAdd last (some 200)) (some 4)))

/-- `MomentumFeatures._calculate_cci`: 50 on any caught failure; a NaN last
value passes through the clamp to 100. -/
def calculate_cci (ohlcv : PyDataFrame) (period : ℕ) : PyFloat :=
  match cciBody ohlcv period with
  | Except.ok v => v
  | Except.error _ => some 50

/-- The hardcoded neutral default map of `MomentumFeatures.calculate`
(momentum.py lines 58-62). -/
def momentumDefaults : List (String × PyFloat) :=
  [("rsi_14", some 50), ("rsi_7", some 50), ("macd_histogram", some 50),
   ("macd_signal", some 50), ("stoch_k", some 50), ("stoch_d", some 50),
   ("roc_10", some 50), ("roc_20", some 50), ("williams_r", some 50),
   ("cci", some 50), ("momentum_composite", some 50)]

/-- The `try` body of `MomentumFeatures.calculate` (momentum.py lines
19-54); its only uncaught raises are a missing column and the
`close.iloc[-1]` read feeding `_normalize_macd`. -/
def momentumBody (ohlcv : PyDataFrame) :
    Except Unit (List (String × PyFloat)) := do
  let close ← col ohlcv "close"
  let high ← col ohlcv "high"
  let low ← col ohlcv "low"
  let rsi_14 := calculate_rsi close 14
  let rsi_7 := calculate_rsi close 7
  let macd := calculate_macd close
  let c ← ilocLast close
  let macd_histogram := normalize_macd macd.2.2 c
  let macd_signal : PyFloat := if pyGt macd.1 macd.2.1 then some 100 else some 0
  let stoch := calculate_stochastic high low close 14 3
  let roc_10 := calculate_roc close 10
  let roc_20 := calculate_roc close 20
  let williams_r := calculate_williams_r high low close 14
  let cci := calculate_cci ohlcv 20
  let momentum_composite :=
    pyAdd (pyAdd (pyAdd (pyMul (some rsi_14) (some (3 / 10)))
      (pyMul (some stoch.1) (some (1 / 5))))
      (pyMul macd_histogram (some (3 / 10))))
      (pyMul roc_10 (some (1 / 5)))
  Except.ok
    [("rsi_14", some rsi_14), ("rsi_7", some rsi_7),
     ("macd_histogram", macd_histogram), ("macd_signal", macd_signal),
     ("stoch_k", some stoch.1), ("stoch_d", some stoch.2),
     ("roc_10", roc_10), ("roc_20", roc_20), ("williams_r", williams_r),
     ("cci", cci), ("momentum_composite", momentum_composite)]

end GMPM

namespace GMPM.MomentumFeatures

/-- `MomentumFeatures.calculate` (momentum.py lines 15-64): the body's
result, or the neutral default map when the body raises — it never
propagates an exception. -/
def calculate (ohlcv : GMPM.PyDataFrame) : List (String × GMPM.PyFloat) :=
  match GMPM.momentumBody ohlcv with
  | Except.ok m => m
  | Except.error _ => GMPM.momentumDefaults

end GMPM.MomentumFeatures

namespace GMPM

/-! ### features/technical/volatility.py : `VolatilityFeatures`

`close.rolling(20).std()` and `returns.std()` are sample standard
deviations (ddof = 1) and need a square root, which has no exact rational
embedding; like `np_std`, the calculators take it as a parameter
`sqrtQ`. -/

/-- Sample variance (`std(ddof=1)` squared): squared deviations over
`n - 1`. -/
def sampleVar (l : List ℚ) : ℚ :=
  (l.map (fun x => (x - l.sum / l.length) ^ 2)).sum / ((l.length : ℚ) - 1)

/-- `s.rolling(w).std()` (pandas default `ddof = 1`). -/
def rollingStd (sqrtQ : ℚ → ℚ) (w : ℕ) (s : Series) : Series :=
  rollingApply w (fun l => sqrtQ (sampleVar l)) s

/-- The true-range/ATR computation shared by `_calculate_atr` and
`_calculate_atr_series` (volatility.py lines 65-100); `Except.error` marks
the `KeyError` raises their `try`s catch. -/
def atrSeriesBody (ohlcv : PyDataFrame) (period : ℕ) : Except Unit Series := do
  let high ← col ohlcv "high"
  let low ← col ohlcv "low"
  let close ← col ohlcv "close"
  let tr := rowMax3 (sAlign pySub high low)
    (sMap pyAbs (sAlign pySub high (shift1 close)))
    (sMap pyAbs (sAlign pySub low (shift1 close)))
  Except.ok (rollingMean period tr)

/-- `VolatilityFeatures._calculate_atr`: 0 on a caught failure (missing
column, `iloc[-1]` on empty) or a NaN last value. -/
def calculate_atr (ohlcv : PyDataFrame) (period : ℕ) : ℚ :=
  match (do ilocLast (← atrSeriesBody ohlcv period) : Except Unit PyFloat) with
  | Except.ok (some v) => v
  | _ => 0

/-- `VolatilityFeatures._calculate_atr_series`: the length-1 series `[0]` on
a caught failure. -/
def calculate_atr_series (ohlcv : PyDataFrame) (period : ℕ) : Series :=
  match atrSeriesBody ohlcv period with
  | Except.ok s => s
  | Except.error _ => [some 0]

/-- `VolatilityFeatures._percentile_rank`: total — share of the trailing
non-NaN window strictly below `value`. -/
def percentile_rank (series : Series) (value : ℚ) (lookback : ℕ) : ℚ :=
  let recent := (sTail series lookback).filterMap id
  if recent.isEmpty then 50
  else ((recent.filter (fun x => x < value)).length : ℚ) / recent.length * 100

/-- The inner computation of `VolatilityFeatures._calculate_bollinger`;
its `try` catches the empty-series `iloc[-1]` raises. -/
def bollingerBody (sqrtQ : ℚ → ℚ) (close : Series) (period : ℕ)
    (std_dev : ℚ) : Except Unit (PyFloat × PyFloat) := do
  let sma := rollingMean period close
  let std := rollingStd sqrtQ period close
  let upper := sAlign pyAdd sma (sMap (pyMul (some std_dev)) std)
  let lower := sAlign pySub sma (sMap (pyMul (some std_dev)) std)
  let band_range := sAlign pySub upper lower
  let br ← ilocLast band_range
  let position ← if pyGt br (some 0) then do
      let c ← ilocLast close
      let lo ← ilocLast lower
      Except.ok (pyMul (pyDiv (pySub c lo) br) (some 100))
    else Except.ok (some 50)
  let sm ← ilocLast sma
  let width ← if pyGt sm (some 0) then
      Except.ok (pyMul (pyDiv br sm) (some 100))
    else Except.ok (some 0)
  Except.ok (position, pyMin (some 100) (pyMul width (some 10)))

/-- `VolatilityFeatures._calculate_bollinger`: `(50, 50)` on a caught
failure. -/
def calculate_bollinger (sqrtQ : ℚ → ℚ) (close : Series) (period : ℕ)
    (std_dev : ℚ) : PyFloat × PyFloat :=
  match bollingerBody sqrtQ close period std_dev with
  | Except.ok p => p
  | Except.error _ => (some 50, some 50)

/-- `s.pct_change()`, i.e. `s / s.shift(1) - 1` (the deprecated NaN
forward-fill of older pandas is not applied; it cannot affect whether the
calculator raises). -/
def pct_change (s : Series) : Series :=
  sMap (fun x => pySub x (some 1)) (sAlign pyDiv s (shift1 s))

/-- `VolatilityFeatures._calculate_historical_vol`: total —
`returns.std()` over fewer than two points is NaN, guarded to 0. -/
def calculate_historical_vol (sqrtQ : ℚ → ℚ) (close : Series) (period : ℕ) : ℚ :=
  let returns := (pct_change close).filterMap id
  let t := returns.drop (returns.length - period)
  if t.length < 2 then 0
  else sqrtQ (sampleVar t) * sqrtQ 252 * 100

/-- The inner computation of `VolatilityFeatures._calculate_keltner`; its
`try` catches the missing-column and empty-`iloc` raises. -/
def keltnerBody (ohlcv : PyDataFrame) (period : ℕ) (mult : ℚ) :
    Except Unit PyFloat := do
  let close ← col ohlcv "close"
  let atr := calculate_atr ohlcv period
  let ema := ewmMean period close
  let e ← ilocLast ema
  let upper := pyAdd e (some (mult * atr))
  let lower := pySub e (some (mult * atr))
  let channel_range := pySub upper lower
  if pyGt channel_range (some 0) then do
    let c ← ilocLast close
    Except.ok (pyMul (pyDiv (pySub c lower) channel_range) (some 100))
  else Except.ok (some 50)

/-- `VolatilityFeatures._calculate_keltner`: 50 on a caught failure. -/
def calculate_keltner (ohlcv : PyDataFrame) (period : ℕ) (mult : ℚ) : PyFloat :=
  match keltnerBody ohlcv period mult with
  | Except.ok v => v
  | Except.error _ => some 50

/-- The hardcoded neutral default map of `VolatilityFeatures.calculate`
(volatility.py lines 56-61). -/
def volatilityDefaults : List (String × PyFloat) :=
  [("atr", some 0), ("atr_pct", some 0), ("atr_percentile", some 50),
   ("bb_position", some 50), ("bb_width", some 50), ("hist_vol_20", some 0),
   ("hist_vol_60", some 0), ("vol_ratio", some 50),
   ("keltner_position", some 50), ("atr_expansion", some 50)]

/-- The `try` body of `VolatilityFeatures.calculate` (volatility.py lines
19-53); its uncaught raises are a missing column, `close.iloc[-1]` for
`atr_pct`, and the `iloc[-1]`/`iloc[-20]` reads for `atr_expansion`. -/
def volatilityBody (sqrtQ : ℚ → ℚ) (ohlcv : PyDataFrame) :
    Except Unit (List (String × PyFloat)) := do
  let close ← col ohlcv "close"
  let _high ← col ohlcv "high"
  let _low ← col ohlcv "low"
  let atr := calculate_atr ohlcv 14
  let c ← ilocLast close
  let atr_pct := if pyGt c (some 0) then pyMul (pyDiv (some atr) c) (some 100)
    else some 0
  let atr_series := calculate_atr_series ohlcv 14
  let atr_percentile := percentile_rank atr_series atr 100
  let bb := calculate_bollinger sqrtQ close 20 2
  let hv20 := calculate_historical_vol sqrtQ close 20
  let hv60 := calculate_historical_vol sqrtQ close 60
  let vol_ratio : ℚ := if hv60 > 0 then hv20 / hv60 * 50 else 50
  let keltner := calculate_keltner ohlcv 20 2
  let a1 ← ilocLast atr_series
  let _ ← (if 20 ≤ atr_series.length then Except.ok () else Except.error ())
  let atr_expansion : ℚ := if pyGt a1 (ilocNeg atr_series 20) then 100 else 0
  Except.ok
    [("atr", some atr), ("atr_pct", atr_pct),
     ("atr_percentile", some atr_percentile), ("bb_position", bb.1),
     ("bb_width", bb.2), ("hist_vol_20", some hv20),
     ("hist_vol_60", some hv60), ("vol_ratio", some vol_ratio),
     ("keltner_position", keltner), ("atr_expansion", some atr_expansion)]

end GMPM

namespace GMPM.VolatilityFeatures

/-- `VolatilityFeatures.calculate` (volatility.py lines 15-63): the body's
result, or the neutral default map when the body raises — it never
propagates an exception. -/
def calculate (sqrtQ : ℚ → ℚ) (ohlcv : GMPM.PyDataFrame) :
    List (String × GMPM.PyFloat) :=
  match GMPM.volatilityBody sqrtQ ohlcv with
  | Except.ok m => m
  | Except.error _ => GMPM.volatilityDefaults

end GMPM.VolatilityFeatures

namespace GMPM

/-! ### features/fractal/hurst.py : `HurstFeatures`

The R/S analysis needs the natural logarithm on top of the square root;
both are taken as parameters (`sqrtQ`, `logQ`). -/

/-- Least-squares slope through arbitrary `(x, y)` points
(`np.polyfit(x, y, 1)[0]`). -/
def lsqSlopeXY (pts : List (ℚ × ℚ)) : ℚ :=
  let n : ℚ := pts.length
  let sx := (pts.map Prod.fst).sum
  let sy := (pts.map Prod.snd).sum
  let sxy := (pts.map (fun p => p.1 * p.2)).sum
  let sxx := (pts.map (fun p => p.1 ^ 2)).sum
  (n * sxy - sx * sy) / (n * sxx - sx ^ 2)

/-- One lag of the R/S loop in `HurstFeatures._calculate_hurst`
(hurst.py lines 77-100): `none` when the lag is skipped (fewer than two
sub-series, or no sub-series with positive sample deviation), else the mean
R/S over the sub-series. -/
def hurstLagRS (sqrtQ : ℚ → ℚ) (ts : List ℚ) (lag : ℕ) : Option ℚ :=
  let sub_series_count := ts.length / lag
  if sub_series_count < 2 then none
  else
    let rs_list := (List.range sub_series_count).filterMap (fun i =>
      let sub := (ts.drop (i * lag)).take lag
      let mean := sub.sum / sub.length
      let cumdev := ((sub.map (fun x => x - mean)).scanl (fun a b => a + b) 0).drop 1
      let R := listMax cumdev - listMin cumdev
      let S := sqrtQ (sampleVar sub)
      if S > 0 then some (R / S) else none)
    if rs_list.isEmpty then none else some (rs_list.sum / rs_list.length)

/-- `HurstFeatures._calculate_hurst` (hurst.py lines 61-117): total — 0.5 on
short input or fewer than three usable lags, else the log–log regression
slope clamped into [0, 1]. -/
def calculate_hurst (sqrtQ logQ : ℚ → ℚ) (series : Series)
    (min_periods : ℕ) : ℚ :=
  let ts := series.filterMap id
  if ts.length < min_periods * 2 then 1 / 2
  else
    let max_k := min (ts.length / 2) 100
    let lags := (List.range (max_k - min_periods)).map (fun i => min_periods + i)
    let pairs := lags.filterMap
      (fun lag => (hurstLagRS sqrtQ ts lag).map (fun rs => ((lag : ℚ), rs)))
    if pairs.length < 3 then 1 / 2
    else
      let slope := lsqSlopeXY (pairs.map (fun p => (logQ p.1, logQ p.2)))
      max 0 (min 1 slope)

/-- `HurstFeatures._calculate_rs_confidence`: total — `min(100, n/5)` over
the non-NaN count. -/
def calculate_rs_confidence (series : Series) : ℚ :=
  min 100 (((series.filterMap id).length : ℚ) / 5)

/-- The hardcoded neutral default map of `HurstFeatures.calculate`
(hurst.py lines 50-57). -/
def hurstDefaults : List (String × ℚ) :=
  [("hurst_exponent", 1 / 2), ("hurst_normalized", 50), ("market_type", 50),
   ("fractal_dimension", 3 / 2), ("fractal_dimension_normalized", 50),
   ("rs_confidence", 50)]

/-- The `try` body of `HurstFeatures.calculate` (hurst.py lines 22-46); its
only uncaught raise is the missing `close` column. -/
def hurstBody (sqrtQ logQ : ℚ → ℚ) (ohlcv : PyDataFrame) :
    Except Unit (List (String × ℚ)) := do
  let close ← col ohlcv "close"
  let hurst := calculate_hurst sqrtQ logQ close 20
  let hurst_normalized := max 0 (min 100 ((hurst - 3 / 10) * 250))
  let market_type : ℚ :=
    if hurst > 11 / 20 then 100 else if hurst < 9 / 20 then 0 else 50
  let fractal_dimension := 2 - hurst
  let fractal_dimension_normalized := (fractal_dimension - 1) * 100
  let rs_confidence := calculate_rs_confidence close
  Except.ok
    [("hurst_exponent", hurst), ("hurst_normalized", hurst_normalized),
     ("market_type", market_type), ("fractal_dimension", fractal_dimension),
     ("fractal_dimension_normalized", fractal_dimension_normalized),
     ("rs_confidence", rs_confidence)]

end GMPM

namespace GMPM.HurstFeatures

/-- `HurstFeatures.calculate` (hurst.py lines 18-59): the body's result, or
the neutral default map when the body raises — it never propagates an
exception. -/
def calculate (sqrtQ logQ : ℚ → ℚ) (ohlcv : GMPM.PyDataFrame) :
    List (String × ℚ) :=
  match GMPM.hurstBody sqrtQ logQ ohlcv with
  | Except.ok m => m
  | Except.error _ => GMPM.hurstDefaults

end GMPM.HurstFeatures

namespace GMPM

/-! ### features/fractal/smc.py : `SMCFeatures`

The order-block and FVG scans index the NumPy arrays negatively inside a
`try: ... except: pass`, so an out-of-range access aborts the scan but
keeps whatever was already recorded; `runSteps` reproduces that.  Python
truthiness (`if bull_ob`) is false for `None` and `0.0` but true for
NaN. -/

/-- Float equality; false when either side is non-finite, as for NaN. -/
def pyEq (a b : PyFloat) : Bool :=
  match a, b with
  | some x, some y => decide (x = y)
  | _, _ => false

/-- Python truthiness of an optional float. -/
def pyTruthy (o : Option PyFloat) : Bool :=
  match o with
  | none => false
  | some none => true
  | some (some v) => decide (v ≠ 0)

/-- Python `max` over a nonempty iterable: replace only on strictly
greater. -/
def pyListMax (l : List PyFloat) : PyFloat :=
  match l with
  | [] => none
  | x :: xs => xs.foldl (fun acc v => if pyGt v acc then v else acc) x

/-- Python `min` over a nonempty iterable: replace only on strictly
smaller. -/
def pyListMin (l : List PyFloat) : PyFloat :=
  match l with
  | [] => none
  | x :: xs => xs.foldl (fun acc v => if pyLt v acc then v else acc) x

/-- NumPy negative indexing `arr[i]` for `i < 0`: `IndexError` out of
range. -/
def npGetNeg (s : Series) (i : Int) : Except Unit PyFloat :=
  let j : Int := (s.length : Int) + i
  if 0 ≤ j ∧ j < (s.length : Int) then Except.ok (sGet s j.toNat)
  else Except.error ()

/-- `range(a, b)` over integers. -/
def intRange (a b : Int) : List Int :=
  (List.range (b - a).toNat).map (fun k => a + (k : Int))

/-- Run a loop whose body may raise under `try: ... except: pass`: the
first raise aborts the remaining iterations but keeps the state built so
far. -/
def runSteps
    (f : Option PyFloat × Option PyFloat → Int →
      Except (Option PyFloat × Option PyFloat) (Option PyFloat × Option PyFloat)) :
    Option PyFloat × Option PyFloat → List Int → Option PyFloat × Option PyFloat
  | st, [] => st
  | st, i :: rest =>
      match f st i with
      | Except.ok st' => runSteps f st' rest
      | Except.error st' => st'

/-- One iteration of the `_find_order_blocks` scan (smc.py lines 82-91),
with the accesses in Python's evaluation order. -/
def obStep (bhigh blow bclose : Series)
    (st : Option PyFloat × Option PyFloat) (i : Int) :
    Except (Option PyFloat × Option PyFloat) (Option PyFloat × Option PyFloat) :=
  match npGetNeg bclose (i + 2) with
  | Except.error _ => Except.error st
  | Except.ok c2 =>
    match npGetNeg bhigh i with
    | Except.error _ => Except.error st
    | Except.ok hi =>
      let first : Except (Option PyFloat × Option PyFloat)
          (Option PyFloat × Option PyFloat) :=
        if pyGt c2 (pyMul hi (some (101 / 100))) then
          match npGetNeg blow i with
          | Except.error _ => Except.error st
          | Except.ok lo => Except.ok (some lo, st.2)
        else Except.ok st
      match first with
      | Except.error st' => Except.error st'
      | Except.ok st1 =>
        match npGetNeg blow i with
        | Except.error _ => Except.error st1
        | Except.ok lo' =>
          Except.ok
            (if pyLt c2 (pyMul lo' (some (99 / 100))) then (st1.1, some hi)
             else st1)

/-- `SMCFeatures._find_order_blocks` (smc.py lines 71-95): scan
`range(-lookback, -3)`, remembering the last bullish/bearish order block
(the unused `open_` column is still read by the caller). -/
def find_order_blocks (bhigh blow bclose : Series) (lookback : ℕ) :
    Option PyFloat × Option PyFloat :=
  runSteps (obStep bhigh blow bclose) (none, none)
    (intRange (-(lookback : Int)) (-3))

/-- One iteration of the `_find_fvgs` scan (smc.py lines 108-117). -/
def fvgStep (bhigh blow : Series)
    (st : Option PyFloat × Option PyFloat) (i : Int) :
    Except (Option PyFloat × Option PyFloat) (Option PyFloat × Option PyFloat) :=
  match npGetNeg blow (i + 2) with
  | Except.error _ => Except.error st
  | Except.ok low2 =>
    match npGetNeg bhigh i with
    | Except.error _ => Except.error st
    | Except.ok hi =>
      let st1 := if pyGt low2 hi then
          (some (pyDiv (pyAdd low2 hi) (some 2)), st.2)
        else st
      match npGetNeg bhigh (i + 2) with
      | Except.error _ => Except.error st1
      | Except.ok high2 =>
        match npGetNeg blow i with
        | Except.error _ => Except.error st1
        | Except.ok lo =>
          Except.ok
            (if pyLt high2 lo then
              (st1.1, some (pyDiv (pyAdd high2 lo) (some 2)))
             else st1)

/-- `SMCFeatures._find_fvgs` (smc.py lines 97-121): scan
`range(-lookback, -2)`, remembering the last bullish/bearish gap
midpoint. -/
def find_fvgs (bhigh blow : Series) (lookback : ℕ) :
    Option PyFloat × Option PyFloat :=
  runSteps (fvgStep bhigh blow) (none, none) (intRange (-(lookback : Int)) (-2))

/-- `SMCFeatures._find_swing_points` (smc.py lines 160-171): total —
positions whose value equals the extremum of their ±window slice. -/
def find_swing_points (arr : Series) (isHigh : Bool) (window : ℕ) :
    List PyFloat :=
  ((List.range (arr.length - window - window)).map (fun k => window + k)).filterMap
    (fun i =>
      let slice := (arr.drop (i - window)).take (window + window + 1)
      let ext := if isHigh then pyListMax slice else pyListMin slice
      if pyEq (sGet arr i) ext then some (sGet arr i) else none)

/-- `SMCFeatures._detect_bos` (smc.py lines 123-158): total — its `try` has
no reachable failure. -/
def detect_bos (bhigh blow : Series) (bullish : Bool) (lookback : ℕ) : ℚ :=
  let recent_high := sTail bhigh lookback
  let recent_low := sTail blow lookback
  let swing_highs := find_swing_points recent_high true 5
  let swing_lows := find_swing_points recent_low false 5
  if bullish then
    if 2 ≤ swing_highs.length ∧ 2 ≤ swing_lows.length then
      if pyGt (ilocNeg swing_highs 1) (ilocNeg swing_highs 2) &&
          pyGt (ilocNeg swing_lows 1) (ilocNeg swing_lows 2) then 100
      else if pyGt (ilocNeg swing_highs 1) (ilocNeg swing_highs 2) then 75
      else 25
    else 25
  else
    if 2 ≤ swing_highs.length ∧ 2 ≤ swing_lows.length then
      if pyLt (ilocNeg swing_lows 1) (ilocNeg swing_lows 2) &&
          pyLt (ilocNeg swing_highs 1) (ilocNeg swing_highs 2) then 100
      else if pyLt (ilocNeg swing_lows 1) (ilocNeg swing_lows 2) then 75
      else 25
    else 25

/-- `SMCFeatures._find_liquidity` (smc.py lines 173-210): total — NaN in
the trailing window makes the tolerance NaN, so no cluster qualifies. -/
def find_liquidity (sqrtQ : ℚ → ℚ) (arr : Series) (above : Bool)
    (current_price : PyFloat) (lookback : ℕ) : PyFloat :=
  let recent := sTail arr lookback
  let tolerance : PyFloat :=
    if recent.isEmpty || recent.any (fun v => v.isNone) then none
    else some (sqrtQ (np_var (recent.filterMap id)) * (1 / 10))
  let clusters : List ℚ := recent.filterMap (fun p =>
    match p with
    | none => none
    | some pv =>
        let similar_count :=
          (recent.filter (fun q => pyLt (pyAbs (pySub q (some pv))) tolerance)).length
        if 3 ≤ similar_count then some pv else none)
  if clusters.isEmpty then some 50
  else if above then
    let abv := clusters.filter (fun p => pyGt (some p) current_price)
    if abv.isEmpty then some 50
    else
      let nearest := listMin abv
      let distance_pct :=
        pyMul (pyDiv (pySub (some nearest) current_price) current_price) (some 100)
      pyMax (some 0) (pySub (some 100) (pyMul distance_pct (some 20)))
  else
    let blw := clusters.filter (fun p => pyLt (some p) current_price)
    if blw.isEmpty then some 50
    else
      let nearest := listMax blw
      let distance_pct :=
        pyMul (pyDiv (pySub current_price (some nearest)) current_price) (some 100)
      pyMax (some 0) (pySub (some 100) (pyMul distance_pct (some 20)))

/-- `SMCFeatures._normalize_distance` (smc.py lines 212-221): 50 for a
missing level, else the ±5% distance clamped onto [0, 100]. -/
def smc_normalize_distance (current : PyFloat) (level : Option PyFloat) :
    PyFloat :=
  match level with
  | none => some 50
  | some lv =>
      pyClamp (pyMul (pyAdd (pyMul (pyDiv (pySub lv current) current) (some 100))
        (some 5)) (some 10))

/-- `SMCFeatures._ob_proximity_score` (smc.py lines 223-237); note the
Python truthiness tests on the order-block levels. -/
def ob_proximity_score (price : PyFloat) (bull_ob bear_ob : Option PyFloat) :
    PyFloat :=
  if bull_ob = none ∧ bear_ob = none then some 50
  else
    let bull_dist := if pyTruthy bull_ob then
        pyMul (pyDiv (pyAbs (pySub price (bull_ob.getD none))) price) (some 100)
      else some 100
    let bear_dist := if pyTruthy bear_ob then
        pyMul (pyDiv (pyAbs (pySub price (bear_ob.getD none))) price) (some 100)
      else some 100
    if pyLt bull_dist bear_dist then
      pyMax (some 0) (pySub (some 100) (pyMul bull_dist (some 10)))
    else
      pyMax (some 0) (pySub (some 100) (pyMul bear_dist (some 10)))

/-- The hardcoded neutral default map of `SMCFeatures.calculate`
(smc.py lines 62-67). -/
def smcDefaults : List (String × PyFloat) :=
  [("order_block_bull", some 50), ("order_block_bear", some 50),
   ("ob_proximity", some 50), ("fvg_up", some 50), ("fvg_down", some 50),
   ("fvg_bias", some 50), ("bos_bullish", some 50), ("bos_bearish", some 50),
   ("structure_bias", some 50), ("liquidity_above", some 50),
   ("liquidity_below", some 50), ("smc_score", some 50)]

/-- The `try` body of `SMCFeatures.calculate` (smc.py lines 23-58); its
uncaught raises are a missing column and `close[-1]` on an empty frame. -/
def smcBody (sqrtQ : ℚ → ℚ) (ohlcv : PyDataFrame) :
    Except Unit (List (String × PyFloat)) := do
  let high ← col ohlcv "high"
  let low ← col ohlcv "low"
  let close ← col ohlcv "close"
  let _open ← col ohlcv "open"
  let current_price ← ilocLast close
  let ob := find_order_blocks high low close 50
  let order_block_bull := smc_normalize_distance current_price ob.1
  let order_block_bear := smc_normalize_distance current_price ob.2
  let ob_prox := ob_proximity_score current_price ob.1 ob.2
  let fvg := find_fvgs high low 30
  let fvg_up_n := smc_normalize_distance current_price fvg.1
  let fvg_down_n := smc_normalize_distance current_price fvg.2
  let fvg_bias : ℚ :=
    if pyTruthy fvg.1 && pyLt (fvg.1.getD none) current_price then 100
    else if pyTruthy fvg.2 && pyGt (fvg.2.getD none) current_price then 0
    else 50
  let bos_bullish := detect_bos high low true 20
  let bos_bearish := detect_bos high low false 20
  let structure_bias := bos_bullish * (1 / 2) + (100 - bos_bearish) * (1 / 2)
  let liquidity_above := find_liquidity sqrtQ high true current_price 50
  let liquidity_below := find_liquidity sqrtQ low false current_price 50
  let smc_score :=
    pyAdd (pyAdd (pyAdd (pyMul ob_prox (some (1 / 4)))
      (some (fvg_bias * (1 / 4))))
      (some (structure_bias * (3 / 10))))
      (pyMul (pyDiv (pyAdd liquidity_above liquidity_below) (some 2))
        (some (1 / 5)))
  Except.ok
    [("order_block_bull", order_block_bull),
     ("order_block_bear", order_block_bear), ("ob_proximity", ob_prox),
     ("fvg_up", fvg_up_n), ("fvg_down", fvg_down_n),
     ("fvg_bias", some fvg_bias), ("bos_bullish", some bos_bullish),
     ("bos_bearish", some bos_bearish), ("structure_bias", some structure_bias),
     ("liquidity_above", liquidity_above), ("liquidity_below", liquidity_below),
     ("smc_score", smc_score)]

end GMPM

namespace GMPM.SMCFeatures

/-- `SMCFeatures.calculate` (smc.py lines 19-69): the body's result, or the
neutral default map when the body raises — it never propagates an
exception. -/
def calculate (sqrtQ : ℚ → ℚ) (ohlcv : GMPM.PyDataFrame) :
    List (String × GMPM.PyFloat) :=
  match GMPM.smcBody sqrtQ ohlcv with
  | Except.ok m => m
  | Except.error _ => GMPM.smcDefaults

end GMPM.SMCFeatures

/-- C5: the scenario history never exceeds 10 entries over any run of
determine calls from the initial engine, and a single call appends the
winning label exactly when it differs from the last stored entry (or the
history is empty) — a repeated label leaves the history unchanged. -/
theorem c5_scenario_sequence_spec :
    (∀ ms : List GMPM.ScenMacro, (GMPM.runScenario ms).sequence.length ≤ 10) ∧
    (∀ (eng : GMPM.ScenarioEngineState) (m : GMPM.ScenMacro),
      (eng.sequence.getLast? = some (GMPM.scen_best_pair m).1 →
        (GMPM.determine eng m).sequence = eng.sequence) ∧
      (eng.sequence.getLast? ≠ some (GMPM.scen_best_pair m).1 →
        (GMPM.determine eng m).sequence =
          GMPM.lastN 10 (eng.sequence ++ [(GMPM.scen_best_pair m).1]))) := by
  constructor
  · intro ms
    exact GMPM.determine_preserves_cap ms GMPM.initial_scenario_engine (by simp [GMPM.initial_scenario_engine])
  · intro eng m
    constructor
    · intro hlast
      rw [GMPM.determine_sequence, if_neg]
      rw [not_or]
      constructor
      · intro hemp
        rw [List.isEmpty_iff] at hemp
        rw [hemp] at hlast
        simp at hlast
      · simpa using hlast
    · intro hlast
      rw [GMPM.determine_sequence, if_pos (Or.inr hlast)]

/-- Witness for C5: from the empty initial history the default macro input
appends its winning label `DISINFLATION`; repeating it appends nothing. -/
theorem c5_scenario_sequence_spec_witness :
    (GMPM.initial_scenario_engine.sequence.getLast? ≠
      some (GMPM.scen_best_pair {}).1) ∧
    (GMPM.determine GMPM.initial_scenario_engine {}).sequence = ["DISINFLATION"] ∧
    ((GMPM.determine GMPM.initial_scenario_engine {}).sequence.getLast? =
      some (GMPM.scen_best_pair {}).1) ∧
    (GMPM.determine (GMPM.determine GMPM.initial_scenario_engine {}) {}).sequence =
      ["DISINFLATION"] := by
  have hne : ¬ (("FLAT" : String) = "FALLING") := by decide
  have h1 : GMPM.score_disinflation {} = 65 := by
    norm_num [GMPM.score_disinflation, hne, min_def]
  have h2 : GMPM.score_reacceleration {} = 40 := by
    norm_num [GMPM.score_reacceleration, min_def]
  have h3 : GMPM.score_goldilocks {} = 40 := by
    norm_num [GMPM.score_goldilocks, min_def]
  have h4 : GMPM.score_stagflation {} = 30 := by
    norm_num [GMPM.score_stagflation, min_def]
  have h5 : GMPM.scen_score_risk_off {} = 30 := by
    norm_num [GMPM.scen_score_risk_off, min_def]
  have hbest : (GMPM.scen_best_pair ({} : GMPM.ScenMacro)).1 = "DISINFLATION" := by
    simp only [GMPM.scen_best_pair, GMPM.pyMaxBy, List.foldl_cons, List.foldl_nil,
      h1, h2, h3, h4, h5]
    norm_num
  have h0 : GMPM.initial_scenario_engine.sequence.getLast? ≠
      some (GMPM.scen_best_pair ({} : GMPM.ScenMacro)).1 := by
    simp [GMPM.initial_scenario_engine]
  have h1 := ((c5_scenario_sequence_spec.2 GMPM.initial_scenario_engine {}).2) h0
  have h1' : (GMPM.determine GMPM.initial_scenario_engine {}).sequence =
      ["DISINFLATION"] := by
    rw [h1, hbest]
    simp [GMPM.initial_scenario_engine, GMPM.lastN]
  have h2 : (GMPM.determine GMPM.initial_scenario_engine {}).sequence.getLast? =
      some (GMPM.scen_best_pair ({} : GMPM.ScenMacro)).1 := by
    rw [h1', hbest]
    simp
  have h3 := ((c5_scenario_sequence_spec.2
    (GMPM.determine GMPM.initial_scenario_engine {}) {}).1) h2
  exact ⟨h0, h1', h2, by rw [h3, h1']⟩

/-- C4: a detect call whose winning label differs from the current regime
resets the duration to 1 and records the previous label, and N consecutive
detect calls that all win the same label L, starting from a state not in L,
leave `duration_days = N` (the entering call counts as day 1). -/
theorem c4_regime_duration_spec :
    (∀ (st : GMPM.RegimeState) (m : GMPM.RegimeMacro),
      GMPM.winning_label st m ≠ st.regime →
      GMPM.detect st m = { regime := GMPM.winning_label st m,
                           confidence := (GMPM.best_regime_pair m).2,
                           previous := some st.regime, duration_days := 1 }) ∧
    (∀ (st0 : GMPM.RegimeState) (L : String) (ms : List GMPM.RegimeMacro),
      ms ≠ [] → st0.regime ≠ L →
      (∀ i (h : i < ms.length),
        GMPM.winning_label (GMPM.detectN st0 (ms.take i)) (ms.get ⟨i, h⟩) = L) →
      (GMPM.detectN st0 ms).regime = L ∧
      (GMPM.detectN st0 ms).duration_days = ms.length ∧
      (GMPM.detectN st0 ms).previous = some st0.regime) := by
  refine ⟨fun st m h => GMPM.detect_diff h, ?_⟩
  intro st0 L ms hne hL hall
  cases ms with
  | nil => cases hne rfl
  | cons m rest =>
      have h0 : GMPM.winning_label st0 m = L := by
        have := hall 0 (by simp)
        simpa [GMPM.detectN] using this
      have hdiff : GMPM.winning_label st0 m ≠ st0.regime := by
        rw [h0]; exact fun hc => hL hc.symm
      set st1 : GMPM.RegimeState := { regime := L, confidence := (GMPM.best_regime_pair m).2, previous := some st0.regime, duration_days := 1 } with hst1
      have hstep : GMPM.detect st0 m = st1 := by
        rw [GMPM.detect_diff hdiff, h0]
      have hfold : GMPM.detectN st0 (m :: rest) = GMPM.detectN st1 rest := by
        simp [GMPM.detectN, List.foldl_cons, hstep]
      have hrest : ∀ i (h : i < rest.length),
          GMPM.winning_label (GMPM.detectN st1 (rest.take i)) (rest.get ⟨i, h⟩) =
            st1.regime := by
        intro i h
        have := hall (i + 1) (by simpa using Nat.succ_lt_succ h)
        simpa [GMPM.detectN, List.take_succ_cons, List.foldl_cons, hstep] using this
      rw [hfold, GMPM.detectN_same_all rest _ hrest]
      refine ⟨rfl, ?_, rfl⟩
      show (1 : Int) + rest.length = ((m :: rest).length : Int)
      simp only [List.length_cons]
      push_cast
      ring

/-- Witness for C4: two consecutive risk-on detections from the initial state
enter `RISK_ON` and leave a duration of 2 days. -/
theorem c4_regime_duration_spec_witness :
    (([GMPM.riskon_input, GMPM.riskon_input] : List GMPM.RegimeMacro) ≠ [] ∧
      GMPM.initial_regime_state.regime ≠ "RISK_ON") ∧
    (GMPM.detectN GMPM.initial_regime_state
      [GMPM.riskon_input, GMPM.riskon_input]).regime = "RISK_ON" ∧
    (GMPM.detectN GMPM.initial_regime_state
      [GMPM.riskon_input, GMPM.riskon_input]).duration_days = 2 := by
  have h := c4_regime_duration_spec.2 GMPM.initial_regime_state "RISK_ON"
    [GMPM.riskon_input, GMPM.riskon_input] (by simp)
    (by simp [GMPM.initial_regime_state])
    (by
      intro i hi
      have hget : ([GMPM.riskon_input, GMPM.riskon_input].get ⟨i, hi⟩) =
          GMPM.riskon_input := by
        rcases i with _ | _ | i
        · rfl
        · rfl
        · simp only [List.length_cons, List.length_nil] at hi; omega
      rw [hget]
      exact GMPM.winning_label_riskon _)
  exact ⟨⟨by simp, by simp [GMPM.initial_regime_state]⟩, h.1, by rw [h.2.1]; simp⟩

/-- C10: while the winning label equals the current regime, `detect` only
increments `duration_days`; the stored confidence and previous label keep the
values recorded when the regime was entered, even if the new best score
differs. -/
theorem c10_same_label_updates_only_duration :
    ∀ (st : GMPM.RegimeState) (m : GMPM.RegimeMacro),
      GMPM.winning_label st m = st.regime →
      (GMPM.detect st m).regime = st.regime ∧
      (GMPM.detect st m).confidence = st.confidence ∧
      (GMPM.detect st m).previous = st.previous ∧
      (GMPM.detect st m).duration_days = st.duration_days + 1 := by
  intro st m h
  rw [GMPM.detect_same h]
  exact ⟨rfl, rfl, rfl, rfl⟩

/-- Witness for C10: a repeated `RISK_ON` detection whose fresh best score is
100 leaves the stored confidence at 77. -/
theorem c10_same_label_updates_only_duration_witness :
    GMPM.winning_label { regime := "RISK_ON", confidence := 77, previous := some "UNCERTAIN", duration_days := 3 } GMPM.riskon_input = "RISK_ON" ∧
    (GMPM.best_regime_pair GMPM.riskon_input).2 = 100 ∧
    (GMPM.detect { regime := "RISK_ON", confidence := 77, previous := some "UNCERTAIN", duration_days := 3 } GMPM.riskon_input).confidence = 77 ∧
    (GMPM.detect { regime := "RISK_ON", confidence := 77, previous := some "UNCERTAIN", duration_days := 3 } GMPM.riskon_input).duration_days = 4 := by
  have hw : GMPM.winning_label { regime := "RISK_ON", confidence := 77, previous := some "UNCERTAIN", duration_days := 3 } GMPM.riskon_input = "RISK_ON" :=
    GMPM.winning_label_riskon _
  have h := c10_same_label_updates_only_duration
    { regime := "RISK_ON", confidence := 77, previous := some "UNCERTAIN", duration_days := 3 }
    GMPM.riskon_input hw
  refine ⟨hw, by rw [GMPM.best_riskon_input], h.2.1, ?_⟩
  rw [h.2.2.2]
  norm_num

/-- C7 counterexample: on the macro input VIX 35, credit spread 550,
yield curve -0.2 the detector classifies `RISK_OFF`, not `STRESS` as the
claim states: VIX 35 does not pass the strict `> 35` stress test and 550 bps
does not pass `> 700`, so the stress score is 20 while risk-off scores 100. -/
theorem c7_stress_claim_counterexample :
    (GMPM.detect GMPM.initial_regime_state GMPM.c7_input).regime = "RISK_OFF" ∧
    (GMPM.detect GMPM.initial_regime_state GMPM.c7_input).regime ≠ "STRESS" ∧
    GMPM.score_stress GMPM.c7_input = 20 ∧
    GMPM.score_risk_off GMPM.c7_input = 100 := by
  have hw := GMPM.winning_label_c7 GMPM.initial_regime_state
  have hne : GMPM.winning_label GMPM.initial_regime_state GMPM.c7_input ≠
      GMPM.initial_regime_state.regime := by
    rw [hw]; simp [GMPM.initial_regime_state]
  rw [GMPM.detect_diff hne, hw]
  exact ⟨rfl, by simp, GMPM.scores_c7_input.2.2, GMPM.scores_c7_input.2.1⟩

/-- C7 amended: for the macro input VIX 35, credit spread 550 bps, yield
curve -0.2, the detector classifies the regime as `RISK_OFF` (risk-off score
100, stress score only 20), from any prior state. -/
theorem c7_regime_risk_off_amended :
    ∀ st : GMPM.RegimeState,
      (GMPM.detect st GMPM.c7_input).regime = "RISK_OFF" ∧
      GMPM.score_risk_off GMPM.c7_input = 100 ∧
      GMPM.score_stress GMPM.c7_input = 20 := by
  intro st
  refine ⟨?_, GMPM.scores_c7_input.2.1, GMPM.scores_c7_input.2.2⟩
  by_cases h : GMPM.winning_label st GMPM.c7_input = st.regime
  · rw [GMPM.detect_same h]
    show st.regime = "RISK_OFF"
    rw [← h, GMPM.winning_label_c7]
  · rw [GMPM.detect_diff h]
    show GMPM.winning_label st GMPM.c7_input = "RISK_OFF"
    exact GMPM.winning_label_c7 st

/-- C3: every site normalizing the high-yield spread multiplies by 100 exactly
when the raw value is below 50 and passes the value through unchanged at or
above 50; concretely 3.5 becomes 350, 350 stays 350, and the boundary value 50
passes through unchanged. -/
theorem c3_hy_bps_normalization :
    (∀ v : ℚ, v < 50 →
      GMPM.snapshot_credit_spread v = v * 100 ∧ GMPM.meso_value_bps v = v * 100 ∧
        ∀ ch : ℚ, GMPM.meso_change_bps v ch = ch * 100) ∧
    (∀ v : ℚ, 50 ≤ v →
      GMPM.snapshot_credit_spread v = v ∧ GMPM.meso_value_bps v = v ∧
        ∀ ch : ℚ, GMPM.meso_change_bps v ch = ch) ∧
    GMPM.snapshot_credit_spread (7 / 2) = 350 ∧
    GMPM.snapshot_credit_spread 350 = 350 ∧
    GMPM.snapshot_credit_spread 50 = 50 ∧
    GMPM.meso_value_bps (7 / 2) = 350 ∧
    GMPM.meso_value_bps 350 = 350 ∧
    GMPM.meso_value_bps 50 = 50 := by
  refine ⟨?_, ?_, ?_, ?_, ?_, ?_, ?_, ?_⟩
  · intro v hv
    exact ⟨by simp [GMPM.snapshot_credit_spread, hv],
      by simp [GMPM.meso_value_bps, hv],
      fun ch => by simp [GMPM.meso_change_bps, hv]⟩
  · intro v hv
    have hv' : ¬ v < 50 := not_lt.mpr hv
    exact ⟨by simp [GMPM.snapshot_credit_spread, hv'],
      by simp [GMPM.meso_value_bps, hv'],
      fun ch => by simp [GMPM.meso_change_bps, hv']⟩
  · norm_num [GMPM.snapshot_credit_spread]
  · norm_num [GMPM.snapshot_credit_spread]
  · norm_num [GMPM.snapshot_credit_spread]
  · norm_num [GMPM.meso_value_bps]
  · norm_num [GMPM.meso_value_bps]
  · norm_num [GMPM.meso_value_bps]

/-- Witness for C3 at the concrete inputs 3.5 (below the boundary) and 350. -/
theorem c3_hy_bps_normalization_witness :
    ((7 / 2 : ℚ) < 50 ∧ GMPM.meso_change_bps (7 / 2) 2 = 2 * 100) ∧
    ((50 : ℚ) ≤ 350 ∧ GMPM.meso_change_bps 350 2 = 2) :=
  ⟨⟨by norm_num, (c3_hy_bps_normalization.1 (7 / 2) (by norm_num)).2.2 2⟩,
    ⟨by norm_num, (c3_hy_bps_normalization.2.1 350 (by norm_num)).2.2 2⟩⟩

/-- C2: with fewer than 20 valid samples the percentile is the neutral 50 and
the z-score the neutral 0; with at least 20 valid samples the z-score is
`(value - mean) / std` guarded to 0 when the standard deviation is 0, and in
particular an all-constant sample (standard deviation 0) yields 0 rather than
a division error. -/
theorem c2_series_stats_spec (sqrtQ : ℚ → ℚ) (s : List (Option ℚ)) (value : ℚ) :
    ((s.filterMap id).length < 20 →
      GMPM.series_percentile s value = 50 ∧ GMPM.series_zscore sqrtQ s value = 0) ∧
    (20 ≤ (s.filterMap id).length →
      GMPM.series_zscore sqrtQ s value =
        (if GMPM.np_std sqrtQ (s.filterMap id) = 0 then 0
         else (value - GMPM.np_mean (s.filterMap id)) /
           GMPM.np_std sqrtQ (s.filterMap id))) ∧
    (20 ≤ (s.filterMap id).length → sqrtQ 0 = 0 →
      (∀ x ∈ s.filterMap id, x = GMPM.np_mean (s.filterMap id)) →
      GMPM.series_zscore sqrtQ s value = 0) := by
  have hlen : (s.filterMap id).length ≤ s.length := List.length_filterMap_le _ _
  refine ⟨?_, ?_, ?_⟩
  · intro hv
    unfold GMPM.series_percentile GMPM.series_zscore
    by_cases hs : s.length < 20
    · simp [hs]
    · simp only [hs, if_neg, if_false, hv, if_true]
      exact ⟨trivial, trivial⟩
  · intro hv
    have hs : ¬ s.length < 20 := by omega
    have hv' : ¬ (s.filterMap id).length < 20 := by omega
    unfold GMPM.series_zscore
    simp only [hs, if_false, hv', if_true]
  · intro hv h0 hconst
    have hs : ¬ s.length < 20 := by omega
    have hv' : ¬ (s.filterMap id).length < 20 := by omega
    have hvar : GMPM.np_var (s.filterMap id) = 0 := by
      unfold GMPM.np_var
      have : (s.filterMap id).map
          (fun x => (x - GMPM.np_mean (s.filterMap id)) ^ 2) =
          (s.filterMap id).map (fun _ => (0 : ℚ)) := by
        apply List.map_congr_left
        intro x hx
        rw [hconst x hx]; ring
      rw [this]
      unfold GMPM.np_mean
      simp
    have hstd : GMPM.np_std sqrtQ (s.filterMap id) = 0 := by
      unfold GMPM.np_std
      rw [hvar, h0]
    unfold GMPM.series_zscore
    simp only [hs, if_false, hv', if_true, hstd]

/-- Witness for C2: a 5-valid-point sample returns the neutral defaults, and a
21-point constant sample returns z-score 0. -/
theorem c2_series_stats_spec_witness :
    (((List.replicate 5 (some (3 : ℚ))).filterMap id).length < 20 ∧
      GMPM.series_percentile (List.replicate 5 (some (3 : ℚ))) 1 = 50 ∧
      GMPM.series_zscore id (List.replicate 5 (some (3 : ℚ))) 1 = 0) ∧
    (20 ≤ ((List.replicate 21 (some (7 : ℚ))).filterMap id).length ∧
      GMPM.series_zscore id (List.replicate 21 (some (7 : ℚ))) 9 = 0) := by
  have harr : (List.replicate 21 (some (7 : ℚ))).filterMap id =
      List.replicate 21 (7 : ℚ) := by decide
  have hmean : GMPM.np_mean (List.replicate 21 (7 : ℚ)) = 7 := by
    unfold GMPM.np_mean
    rw [List.sum_replicate]
    norm_num
  refine ⟨⟨by decide, ?_⟩, by decide, ?_⟩
  · exact (c2_series_stats_spec id (List.replicate 5 (some (3 : ℚ))) 1).1 (by decide)
  · refine (c2_series_stats_spec id (List.replicate 21 (some (7 : ℚ))) 9).2.2
      (by decide) rfl ?_
    rw [harr, hmean]
    intro x hx
    exact List.eq_of_mem_replicate hx

/-- C1: on a date-sorted, validated series, `value_at_or_before t` returns the
value of the latest point whose date is at most `t`; if every date exceeds `t`
it returns the earliest point's value; on an empty series it returns `none`. -/
theorem c1_value_at_or_before_spec (points : List GMPM.TSPoint) (t : Int)
    (hs : points.Pairwise (fun a b => a.1 ≤ b.1)) :
    (points = [] → GMPM.value_at_or_before points t = none) ∧
    ((∃ p ∈ points, p.1 ≤ t) →
      ∃ p ∈ points, p.1 ≤ t ∧ GMPM.value_at_or_before points t = some p.2 ∧
        ∀ q ∈ points, q.1 ≤ t → q.1 ≤ p.1) ∧
    (points ≠ [] → (∀ p ∈ points, t < p.1) →
      ∃ p, points.head? = some p ∧ GMPM.value_at_or_before points t = some p.2) := by
  refine ⟨fun h => by simp [h, GMPM.value_at_or_before], ?_, ?_⟩
  · rintro ⟨p0, hp0, hp0t⟩
    have hne : points ≠ [] := List.ne_nil_of_mem hp0
    have hfil : p0 ∈ points.filter (fun p => decide (p.1 ≤ t)) :=
      List.mem_filter.mpr ⟨hp0, by simpa using hp0t⟩
    have hfne : points.filter (fun p => decide (p.1 ≤ t)) ≠ [] :=
      List.ne_nil_of_mem hfil
    obtain ⟨b, hb⟩ : ∃ b, (points.filter (fun p => decide (p.1 ≤ t))).getLast? = some b :=
      ⟨_, List.getLast?_eq_getLast_of_ne_nil hfne⟩
    have hbmem : b ∈ points.filter (fun p => decide (p.1 ≤ t)) := by
      rcases List.mem_getLast?_eq_getLast (x := b) hb with ⟨h1, h2⟩
      exact h2 ▸ List.getLast_mem h1
    have hbpts : b ∈ points := (List.mem_filter.mp hbmem).1
    have hbt : b.1 ≤ t := by simpa using (List.mem_filter.mp hbmem).2
    refine ⟨b, hbpts, hbt, ?_, ?_⟩
    · rw [GMPM.value_at_or_before_eq, if_neg (by simpa using hne), hb]
    · intro q hq hqt
      have hqfil : q ∈ points.filter (fun p => decide (p.1 ≤ t)) :=
        List.mem_filter.mpr ⟨hq, by simpa using hqt⟩
      rcases GMPM.pairwise_rel_getLast? (hs.filter _) hb q hqfil with rfl | hle
      · exact le_refl _
      · exact hle
  · intro hne hall
    have hfil : points.filter (fun p => decide (p.1 ≤ t)) = [] := by
      rw [List.filter_eq_nil_iff]
      intro p hp
      simpa using not_le.mpr (hall p hp)
    obtain ⟨p, hp⟩ : ∃ p, points.head? = some p := by
      cases points with
      | nil => cases hne rfl
      | cons a l => exact ⟨a, rfl⟩
    refine ⟨p, hp, ?_⟩
    rw [GMPM.value_at_or_before_eq, if_neg (by simpa using hne), hfil]
    simp [hp]

/-- Witness for C1 at a concrete sorted three-point series. -/
theorem c1_value_at_or_before_spec_witness :
    ([((1 : Int), (10 : ℚ)), (3, 20), (5, 30)].Pairwise
        (fun a b => a.1 ≤ b.1)) ∧
    (∃ p ∈ [((1 : Int), (10 : ℚ)), (3, 20), (5, 30)], p.1 ≤ (4 : Int)) ∧
    GMPM.value_at_or_before [((1 : Int), (10 : ℚ)), (3, 20), (5, 30)] 4 = some 20 := by
  have h := c1_value_at_or_before_spec [((1 : Int), (10 : ℚ)), (3, 20), (5, 30)] 4
    (by decide)
  refine ⟨by decide, ⟨(3, 20), by decide, by decide⟩, ?_⟩
  rcases h.2.1 ⟨(3, 20), by decide, by decide⟩ with ⟨p, hp, hpt, heq, hmax⟩
  have hp3 : p = (3, 20) := by
    have h5 := hmax (3, 20) (by decide) (by decide)
    simp only [List.mem_cons, List.not_mem_nil, or_false] at hp
    rcases hp with h1 | h1 | h1
    · exfalso; rw [h1] at h5; exact absurd h5 (by decide)
    · exact h1
    · exfalso; rw [h1] at hpt; exact absurd hpt (by decide)
  rw [heq, hp3]

/-- C6: the returned total score always lies in [0, 100], and the confidence
label is derived from the raw weighted total with exact thresholds: at or
above 80 INSTITUTIONAL (so exactly 80 is INSTITUTIONAL), in [70, 80) HIGH
(so 79.999 is HIGH), in [55, 70) MODERATE, and below 55 LOW. -/
theorem c6_score_range_and_confidence :
    ∀ (regime : String) (fs : GMPM.FeatureSet),
      (0 ≤ (GMPM.score_calculate regime fs).total ∧
        (GMPM.score_calculate regime fs).total ≤ 100) ∧
      (GMPM.score_calculate regime fs).confidence =
        GMPM.determine_confidence (GMPM.weighted_total regime fs) ∧
      (∀ t : ℚ, 80 ≤ t → GMPM.determine_confidence t = "INSTITUTIONAL") ∧
      (∀ t : ℚ, 70 ≤ t → t < 80 → GMPM.determine_confidence t = "HIGH") ∧
      (∀ t : ℚ, 55 ≤ t → t < 70 → GMPM.determine_confidence t = "MODERATE") ∧
      (∀ t : ℚ, t < 55 → GMPM.determine_confidence t = "LOW") ∧
      GMPM.determine_confidence 80 = "INSTITUTIONAL" ∧
      GMPM.determine_confidence (79999 / 1000) = "HIGH" := by
  intro regime fs
  refine ⟨⟨?_, ?_⟩, rfl, ?_, ?_, ?_, ?_, ?_, ?_⟩
  · exact le_min (by norm_num) (le_max_left 0 _)
  · exact min_le_left _ _
  · intro t ht
    unfold GMPM.determine_confidence
    rw [if_pos (by linarith : t ≥ 80)]
  · intro t ht1 ht2
    unfold GMPM.determine_confidence
    rw [if_neg (by linarith : ¬ t ≥ 80), if_pos (by linarith : t ≥ 70)]
  · intro t ht1 ht2
    unfold GMPM.determine_confidence
    rw [if_neg (by linarith : ¬ t ≥ 80), if_neg (by linarith : ¬ t ≥ 70),
      if_pos (by linarith : t ≥ 55)]
  · intro t ht
    unfold GMPM.determine_confidence
    rw [if_neg (by linarith : ¬ t ≥ 80), if_neg (by linarith : ¬ t ≥ 70),
      if_neg (by linarith : ¬ t ≥ 55)]
  · norm_num [GMPM.determine_confidence]
  · norm_num [GMPM.determine_confidence]

/-- Witness for C6 at a concrete regime and feature set, with the threshold
clauses instantiated at 85, 72, 60 and 10. -/
theorem c6_score_range_and_confidence_witness :
    (0 ≤ (GMPM.score_calculate "RISK_ON" { symbol := "BTC" }).total ∧
      (GMPM.score_calculate "RISK_ON" { symbol := "BTC" }).total ≤ 100) ∧
    ((85 : ℚ) ≥ 80 ∧ GMPM.determine_confidence 85 = "INSTITUTIONAL") ∧
    ((72 : ℚ) ≥ 70 ∧ GMPM.determine_confidence 72 = "HIGH") ∧
    ((60 : ℚ) ≥ 55 ∧ GMPM.determine_confidence 60 = "MODERATE") ∧
    ((10 : ℚ) < 55 ∧ GMPM.determine_confidence 10 = "LOW") := by
  have h := c6_score_range_and_confidence "RISK_ON" { symbol := "BTC" }
  exact ⟨h.1,
    ⟨by norm_num, h.2.2.1 85 (by norm_num)⟩,
    ⟨by norm_num, h.2.2.2.1 72 (by norm_num) (by norm_num)⟩,
    ⟨by norm_num, h.2.2.2.2.1 60 (by norm_num) (by norm_num)⟩,
    ⟨by norm_num, h.2.2.2.2.2.1 10 (by norm_num)⟩⟩

/-- C8 counterexample: scoring the empty `FeatureSet` produced for a 40-bar
input does not give total 0 as the claim states; the neutral component
defaults (nine 50s and a risk_reward of 60) produce a weighted total of
1325/26, about 50.96, under the RISK_ON weights. -/
theorem c8_short_input_score_counterexample :
    GMPM.feature_calculate (fun s _ => GMPM.emptyFeatureSet s) "AAPL"
        (List.replicate 40 ⟨1, 1, 1, 1, 1⟩) = GMPM.emptyFeatureSet "AAPL" ∧
    (GMPM.score_calculate "RISK_ON" (GMPM.emptyFeatureSet "AAPL")).total = 1325 / 26 ∧
    (GMPM.score_calculate "RISK_ON" (GMPM.emptyFeatureSet "AAPL")).total ≠ 0 ∧
    (GMPM.score_calculate "RISK_ON" (GMPM.emptyFeatureSet "AAPL")).confidence = "LOW" := by
  have hw := (GMPM.weighted_total_empty_known "AAPL").1
  have htot : (GMPM.score_calculate "RISK_ON" (GMPM.emptyFeatureSet "AAPL")).total =
      GMPM.weighted_total "RISK_ON" (GMPM.emptyFeatureSet "AAPL") :=
    GMPM.score_calculate_total_eq _ _ (by rw [hw]; norm_num) (by rw [hw]; norm_num)
  refine ⟨by simp [GMPM.feature_calculate], ?_, ?_, ?_⟩
  · rw [htot, hw]
  · rw [htot, hw]; norm_num
  · show GMPM.determine_confidence
      (GMPM.weighted_total "RISK_ON" (GMPM.emptyFeatureSet "AAPL")) = "LOW"
    exact GMPM.confidence_low_of_le_51 (by rw [hw]; norm_num)

/-- C8 amended: an input with fewer than 50 bars yields the all-empty
`FeatureSet` without raising, and scoring that empty feature set gives a
LOW-confidence score whose total is the neutral-default value
50 + 10 × (normalized risk_reward weight), strictly between 50 and 51 for
every regime — not 0. -/
theorem c8_short_input_neutral_score_amended :
    ∀ (rest : String → List GMPM.Bar → GMPM.FeatureSet) (sym : String)
      (ohlcv : List GMPM.Bar), ohlcv.length < 50 →
      GMPM.feature_calculate rest sym ohlcv = GMPM.emptyFeatureSet sym ∧
      (∀ regime : String,
        (GMPM.score_calculate regime (GMPM.emptyFeatureSet sym)).confidence = "LOW" ∧
        50 < (GMPM.score_calculate regime (GMPM.emptyFeatureSet sym)).total ∧
        (GMPM.score_calculate regime (GMPM.emptyFeatureSet sym)).total ≤ 51) := by
  intro rest sym ohlcv h
  constructor
  · unfold GMPM.feature_calculate
    rw [if_pos (Or.inr h)]
  · intro regime
    have hb := GMPM.weighted_total_empty_bounds sym regime
    have htot : (GMPM.score_calculate regime (GMPM.emptyFeatureSet sym)).total =
        GMPM.weighted_total regime (GMPM.emptyFeatureSet sym) :=
      GMPM.score_calculate_total_eq _ _ (by linarith [hb.1]) (by linarith [hb.2])
    refine ⟨?_, by rw [htot]; exact hb.1, by rw [htot]; exact hb.2⟩
    show GMPM.determine_confidence
      (GMPM.weighted_total regime (GMPM.emptyFeatureSet sym)) = "LOW"
    exact GMPM.confidence_low_of_le_51 hb.2

/-- Witness for C8 at a concrete 40-bar input and the STRESS regime. -/
theorem c8_short_input_neutral_score_amended_witness :
    (List.replicate 40 (⟨1, 1, 1, 1, 1⟩ : GMPM.Bar)).length < 50 ∧
    GMPM.feature_calculate (fun s _ => GMPM.emptyFeatureSet s) "MSFT"
        (List.replicate 40 ⟨1, 1, 1, 1, 1⟩) = GMPM.emptyFeatureSet "MSFT" ∧
    (GMPM.score_calculate "STRESS" (GMPM.emptyFeatureSet "MSFT")).confidence = "LOW" := by
  have h := c8_short_input_neutral_score_amended (fun s _ => GMPM.emptyFeatureSet s)
    "MSFT" (List.replicate 40 ⟨1, 1, 1, 1, 1⟩) (by simp)
  exact ⟨by simp, h.1, (h.2 "STRESS").1⟩

/-- C9: every feature-group calculate method — trend, momentum, volatility,
Hurst/fractal and SMC/structure — is total: on every input frame it either
returns the value its computation body produced or, when the body raises,
exactly its hardcoded neutral default map (50s, or domain defaults such as
25 for ADX and 0/0.5/1.5 for the ATR and Hurst quantities); in particular an
empty frame (missing columns) and a frame of empty columns land on the
defaults.  The irrational square root and logarithm are parameters. -/
theorem c9_feature_groups_default_on_failure :
    ∀ (sqrtQ logQ : ℚ → ℚ) (df : GMPM.PyDataFrame),
      ((∃ m, GMPM.trendBody df = Except.ok m ∧
          GMPM.TrendFeatures.calculate df = m) ∨
        GMPM.TrendFeatures.calculate df = GMPM.trendDefaults) ∧
      ((∃ m, GMPM.momentumBody df = Except.ok m ∧
          GMPM.MomentumFeatures.calculate df = m) ∨
        GMPM.MomentumFeatures.calculate df = GMPM.momentumDefaults) ∧
      ((∃ m, GMPM.volatilityBody sqrtQ df = Except.ok m ∧
          GMPM.VolatilityFeatures.calculate sqrtQ df = m) ∨
        GMPM.VolatilityFeatures.calculate sqrtQ df = GMPM.volatilityDefaults) ∧
      ((∃ m, GMPM.hurstBody sqrtQ logQ df = Except.ok m ∧
          GMPM.HurstFeatures.calculate sqrtQ logQ df = m) ∨
        GMPM.HurstFeatures.calculate sqrtQ logQ df = GMPM.hurstDefaults) ∧
      ((∃ m, GMPM.smcBody sqrtQ df = Except.ok m ∧
          GMPM.SMCFeatures.calculate sqrtQ df = m) ∨
        GMPM.SMCFeatures.calculate sqrtQ df = GMPM.smcDefaults) ∧
      GMPM.TrendFeatures.calculate [] = GMPM.trendDefaults ∧
      GMPM.MomentumFeatures.calculate [] = GMPM.momentumDefaults ∧
      GMPM.VolatilityFeatures.calculate sqrtQ [] = GMPM.volatilityDefaults ∧
      GMPM.HurstFeatures.calculate sqrtQ logQ [] = GMPM.hurstDefaults ∧
      GMPM.SMCFeatures.calculate sqrtQ [] = GMPM.smcDefaults ∧
      GMPM.TrendFeatures.calculate [("close", []), ("high", []), ("low", [])] =
        GMPM.trendDefaults ∧
      GMPM.MomentumFeatures.calculate [("close", []), ("high", []), ("low", [])] =
        GMPM.momentumDefaults ∧
      GMPM.VolatilityFeatures.calculate sqrtQ
        [("close", []), ("high", []), ("low", [])] = GMPM.volatilityDefaults ∧
      GMPM.SMCFeatures.calculate sqrtQ
        [("close", []), ("high", []), ("low", [])] = GMPM.smcDefaults ∧
      (GMPM.trendDefaults.all
        (fun kv => kv.2 == some 50 || (kv.1 == "adx" && kv.2 == some 25))) = true ∧
      (GMPM.momentumDefaults.all (fun kv => kv.2 == some 50)) = true ∧
      (GMPM.volatilityDefaults.all
        (fun kv => kv.2 == some 50 || kv.2 == some 0)) = true ∧
      (GMPM.smcDefaults.all (fun kv => kv.2 == some 50)) = true := by
  intro sqrtQ logQ df
  refine ⟨?_, ?_, ?_, ?_, ?_, rfl, rfl, rfl, rfl, rfl, rfl, rfl, rfl, rfl,
    by decide, by decide, by decide, by decide⟩
  · cases h : GMPM.trendBody df with
    | ok m => exact Or.inl ⟨m, rfl, by simp [GMPM.TrendFeatures.calculate, h]⟩
    | error e => exact Or.inr (by simp [GMPM.TrendFeatures.calculate, h])
  · cases h : GMPM.momentumBody df with
    | ok m => exact Or.inl ⟨m, rfl, by simp [GMPM.MomentumFeatures.calculate, h]⟩
    | error e => exact Or.inr (by simp [GMPM.MomentumFeatures.calculate, h])
  · cases h : GMPM.volatilityBody sqrtQ df with
    | ok m =>
        exact Or.inl ⟨m, rfl, by simp [GMPM.VolatilityFeatures.calculate, h]⟩
    | error e => exact Or.inr (by simp [GMPM.VolatilityFeatures.calculate, h])
  · cases h : GMPM.hurstBody sqrtQ logQ df with
    | ok m => exact Or.inl ⟨m, rfl, by simp [GMPM.HurstFeatures.calculate, h]⟩
    | error e => exact Or.inr (by simp [GMPM.HurstFeatures.calculate, h])
  · cases h : GMPM.smcBody sqrtQ df with
    | ok m => exact Or.inl ⟨m, rfl, by simp [GMPM.SMCFeatures.calculate, h]⟩
    | error e => exact Or.inr (by simp [GMPM.SMCFeatures.calculate, h])
